import Mathlib

/-!
Verification development for the nano-agentx agent runtime.

Each Python module relevant to the verified properties is shallowly embedded
as executable Lean definitions; mutation is modelled by explicit state
passing, Python exceptions by `Except`, and filesystem / subprocess / LLM
collaborators by explicit oracle parameters.
-/

namespace Spec2Proof

/-! ## Python string primitives

`pyStrip`, `pyLower`, truthiness and slicing helpers mirror the Python
`str` methods used throughout the sources (ASCII inputs only, which is all
the verified properties exercise). -/

/-- Characters Python `str.strip()` and `\s` treat as whitespace
(space, tab, newline, carriage return, form feed, vertical tab). -/
def isPySpace (c : Char) : Bool :=
  c = ' ' ∨ c = '\t' ∨ c = '\n' ∨ c = Char.ofNat 13 ∨ c = Char.ofNat 12 ∨ c = Char.ofNat 11

/-- Python `str.strip()`. -/
def pyStrip (s : String) : String :=
  String.mk (((s.data.dropWhile isPySpace).reverse.dropWhile isPySpace).reverse)

/-- Python `str.lower()` (ASCII). -/
def pyLower (s : String) : String :=
  String.mk (s.data.map Char.toLower)

/-- Python truthiness of an optional string (`bool(x)`): `None` and `""` are falsy. -/
def pyTruthyStr : Option String → Bool
  | none => false
  | some s => s ≠ ""

/-- Python slicing `s[:n]`. -/
def pyTake (n : Nat) (s : String) : String :=
  String.mk (s.data.take n)

/-- Left-to-right non-overlapping replacement of every occurrence of a
non-empty pattern, as Python `str.replace` does (fuelled by the input
length). -/
def listReplace (pat rep : List Char) : Nat → List Char → List Char
  | 0, s => s
  | fuel + 1, s =>
    if s.take pat.length = pat then
      rep ++ listReplace pat rep fuel (s.drop pat.length)
    else
      match s with
      | [] => []
      | c :: cs => c :: listReplace pat rep fuel cs

/-- Python `str.replace` (for the non-empty patterns the sources use). -/
def pyReplace (s pat rep : String) : String :=
  if pat = "" then s
  else String.mk (listReplace pat.data rep.data s.data.length s.data)

/-- Python `sep.join(xs)`. -/
def joinWith (sep : String) : List String → String
  | [] => ""
  | [x] => x
  | x :: xs => x ++ sep ++ joinWith sep xs

/-- Split at the first occurrence of a non-empty separator. -/
def listSplitFirst (pat : List Char) : Nat → List Char → Option (List Char × List Char)
  | 0, _ => none
  | fuel + 1, s =>
    if s.take pat.length = pat then some ([], s.drop pat.length)
    else
      match s with
      | [] => none
      | c :: cs => (listSplitFirst pat fuel cs).map (fun p => (c :: p.1, p.2))

/-- The ASCII single-quote character, used when sources interpolate `'...'`. -/
def sq : String := String.singleton (Char.ofNat 39)

/-! ## Cron tool (`src/nanobot/agent/tools/cron.py`)

`CronTool._add_job` validates the argument combination and builds the
schedule; `CronService.add_job` (``nanobot/cron/service.py``, not part of
`src/`) persists the job. -/

/-- Modelled from the spec: `CronSchedule` is a tagged union
`every{every_ms} | cron{expr, tz} | at{at_ms}` (the defining module
`nanobot/cron/types.py` is not part of `src/`); the dataclass carries a
`kind` discriminator plus the optional payload fields, exactly as the
construction sites in `cron.py` use it. -/
structure CronSchedule where
  kind : String
  everyMs : Option Int := none
  expr : Option String := none
  atMs : Option Int := none
deriving Repr, DecidableEq

/-- Modelled from the spec: the stored `CronJob` fields that
`CronService.add_job` (not part of `src/`) records from the keyword
arguments passed by `CronTool._add_job`: name, schedule, payload
(kind/message/deliver/channel/to) and the `delete_after_run` flag. -/
structure CronJobModel where
  name : String
  schedule : CronSchedule
  message : String
  payloadKind : String
  deliver : Bool
  channel : String
  deliverTo : String  -- the source keyword argument is named `to`, reserved in Lean
  deleteAfterRun : Bool
deriving Repr, DecidableEq

/-- `CronTool._add_job` (cron.py lines 96-166).

State passed explicitly: `channel`/`chatId` are the tool context set by
`set_context`; `nowMs` is `int(time.time()*1000)`; `parseIsoMs` is the
oracle for `datetime.fromisoformat(...).timestamp()*1000` (returns `none`
on `ValueError`); `newJobId` stands for the id generated by the cron
service.  Returns the reply string together with the job handed to
`CronService.add_job` (`none` when no job is created). -/
def addJob (channel chatId : String) (parseIsoMs : String → Option Int)
    (newJobId : String) (nowMs : Int) (message : String) (mode : String)
    (everySeconds : Option Int) (cronExpr : Option String)
    (inSeconds : Option Int) (atArg : Option String) :
    String × Option CronJobModel :=
  if message = "" then ("Error: message is required for add", none)
  else if channel = "" ∨ chatId = "" then
    ("Error: no session context (channel/chat_id)", none)
  else if mode ≠ "reminder" ∧ mode ≠ "task" ∧ mode ≠ "one_time" then
    ("Error: mode must be " ++ sq ++ "reminder" ++ sq ++ ", " ++ sq ++ "task" ++ sq
      ++ ", or " ++ sq ++ "one_time" ++ sq, none)
  else
    let periodicCount := (if everySeconds.isSome then 1 else 0)
      + (if pyTruthyStr cronExpr then 1 else 0)
    let oneTimeCount := (if inSeconds.isSome then 1 else 0)
      + (if pyTruthyStr atArg then 1 else 0)
    let mkJob := fun (schedule : CronSchedule) (deleteAfterRun : Bool) =>
      let payloadKind := if mode = "task" then "agent_turn" else "system_event"
      let job : CronJobModel :=
        { name := pyTake 30 message, schedule := schedule, message := message,
          payloadKind := payloadKind, deliver := true, channel := channel,
          deliverTo := chatId, deleteAfterRun := deleteAfterRun }
      let scheduleLabel := if mode = "one_time" then "one-time" else "recurring"
      ("Created " ++ scheduleLabel ++ " job " ++ sq ++ job.name ++ sq
        ++ " (id: " ++ newJobId ++ ", mode: " ++ mode ++ ")", some job)
    if mode = "reminder" ∨ mode = "task" then
      if periodicCount ≠ 1 then
        ("Error: reminder/task mode requires exactly one of every_seconds or cron_expr", none)
      else if oneTimeCount ≠ 0 then
        ("Error: reminder/task mode does not allow in_seconds or at", none)
      else
        match everySeconds with
        | some es =>
          if es ≤ 0 then ("Error: every_seconds must be > 0", none)
          else mkJob { kind := "every", everyMs := some (es * 1000) } false
        | none => mkJob { kind := "cron", expr := cronExpr } false
    else
      if oneTimeCount ≠ 1 then
        ("Error: one_time mode requires exactly one of in_seconds or at", none)
      else if periodicCount ≠ 0 then
        ("Error: one_time mode does not allow every_seconds or cron_expr", none)
      else
        match inSeconds with
        | some n =>
          if n ≤ 0 then ("Error: in_seconds must be > 0", none)
          else mkJob { kind := "at", atMs := some (nowMs + n * 1000) } true
        | none =>
          match parseIsoMs (atArg.getD "") with
          | none => ("Error: at must be an ISO datetime like 2026-02-11T09:00:00", none)
          | some atMs =>
            if atMs ≤ nowMs then ("Error: at must be in the future", none)
            else mkJob { kind := "at", atMs := some atMs } true

/-! ## Codex merge tool (`src/nanobot/agent/tools/codex/merge_tool.py`)

The merge-plan record and execution result mirror
`src/nanobot/agent/tools/codex/models.py`; `dict[str, Any]` usage maps are
modelled as association lists of token counts. -/

/-- `ExecutionResult` (codex/models.py). -/
structure ExecutionResult where
  ok : Bool
  summary : String
  atMs : Int
  threadId : Option String := none
  usage : List (String × Int) := []
  error : Option String := none
deriving Repr, DecidableEq

/-- `MergePlanRecord` (codex/models.py). -/
structure MergePlanRecord where
  planId : String
  status : String
  createdAtMs : Int
  updatedAtMs : Int
  baseRef : String
  upstreamRef : String
  targetBranch : String
  workingDir : String
  reportPath : String
  reportExcerpt : String
  recommendation : String
  confirmationTokenHash : String
  revision : Int := 0
  lastFeedback : Option String := none
  planThreadId : Option String := none
  planUsage : List (String × Int) := []
  execution : Option ExecutionResult := none
deriving Repr, DecidableEq

/-- The dict returned by `CodexClient.run` (codex/client.py), restricted to
the keys `_execute_merge` reads: `ok`, `message`, `thread_id`, `usage` and
the nested `error.message`. -/
structure CodexOutcome where
  ok : Bool
  message : String
  threadId : Option String := none
  usage : List (String × Int) := []
  errorMessage : Option String := none
deriving Repr, DecidableEq

/-- The configuration flags `_execute_merge` consults
(`tools.codex.enabled`, `tools.codex.allowDangerousFullAccess`). -/
structure MergeConfig where
  enabled : Bool
  allowDangerousFullAccess : Bool
deriving Repr, DecidableEq

/-- The fields of the JSON reply of `_execute_merge` that the verified
properties mention: `ok`, `error.code` and `status`. -/
structure MergeReplyModel where
  ok : Bool
  errorCode : Option String := none
  status : Option String := none
deriving Repr, DecidableEq

/-- Python `str.rstrip()`. -/
def pyRstrip (s : String) : String :=
  String.mk ((s.data.reverse.dropWhile isPySpace).reverse)

/-- Split on every occurrence of a non-empty separator. -/
def listSplitAll (pat : List Char) : Nat → List Char → List (List Char)
  | 0, s => [s]
  | fuel + 1, s =>
    match listSplitFirst pat (s.length + 1) s with
    | none => [s]
    | some (before, rest) => before :: listSplitAll pat fuel rest

/-- Python `str.splitlines()` restricted to `\n` separators (the summaries
fed to it contain no other line breaks). -/
def pySplitLines (s : String) : List String :=
  if s = "" then []
  else (listSplitAll "\n".data (s.data.length + 1) s.data).map String.mk

/-- `CodexMergeTool._summarize` (merge_tool.py lines 535-544).  Note the
source joins with the two-character sequence backslash-`n` (it writes
`"\\n"` inside a normal Python string). -/
def summarize (text : String) (maxChars : Nat) : String :=
  let clean := pyStrip text
  if clean = "" then ""
  else
    let lines := (pySplitLines clean).map pyStrip |>.filter (· ≠ "")
    let compact := joinWith "\\n" (lines.take 8)
    if compact.length ≤ maxChars then compact
    else pyRstrip (pyTake maxChars compact) ++ "..."

/-- `CodexMergeTool._extract_error_message` (merge_tool.py lines 546-556). -/
def extractErrorMessage (codex : CodexOutcome) : String :=
  match codex.errorMessage with
  | some m => if pyStrip m ≠ "" then pyStrip m else
      if pyStrip codex.message ≠ "" then pyStrip codex.message else "codex execution failed"
  | none =>
      if pyStrip codex.message ≠ "" then pyStrip codex.message else "codex execution failed"

/-- `CodexMergeTool._execute_merge` (merge_tool.py lines 315-402).

Oracles: `hash` is `hashlib.sha256(...).hexdigest()` (`_hash_token`),
`reportExists` is the `Path(record.report_path)` existence check, `nowMs`
is `_now_ms()`, `record?` is `store.load(plan_id)` and `codex` the outcome
of `self._exec_client.run(...)`.  Returns the reply together with the
record passed to `store.save` (`none` when nothing is saved). -/
def executeMerge (cfg : MergeConfig) (hash : String → String)
    (reportExists : Bool) (nowMs : Int)
    (record? : Option MergePlanRecord) (codex : CodexOutcome)
    (planId : Option String) (confirmationToken : Option String) :
    MergeReplyModel × Option MergePlanRecord :=
  if ¬cfg.enabled then ({ ok := false, errorCode := some "codex_disabled" }, none)
  else if ¬cfg.allowDangerousFullAccess then
    ({ ok := false, errorCode := some "dangerous_full_access_not_allowed" }, none)
  else
    let selectedPlanId := pyStrip (planId.getD "")
    if selectedPlanId = "" then ({ ok := false, errorCode := some "missing_plan_id" }, none)
    else
      let providedToken := pyStrip (confirmationToken.getD "")
      if providedToken = "" then
        ({ ok := false, errorCode := some "missing_confirmation_token" }, none)
      else
        match record? with
        | none => ({ ok := false, errorCode := some "plan_not_found" }, none)
        | some record =>
          let expectedHash := record.confirmationTokenHash
          if expectedHash = "" ∨ hash providedToken ≠ expectedHash then
            ({ ok := false, errorCode := some "invalid_confirmation_token" }, none)
          else if ¬reportExists then
            ({ ok := false, errorCode := some "report_not_found" }, none)
          else if codex.ok then
            let saved := { record with
              status := "executed", updatedAtMs := nowMs, confirmationTokenHash := "",
              execution := some
                { ok := true, summary := summarize codex.message 1200, atMs := nowMs,
                  threadId := codex.threadId, usage := codex.usage, error := none } }
            ({ ok := true, status := some "executed" }, some saved)
          else
            let errorMsg := extractErrorMessage codex
            let saved := { record with
              status := "failed", updatedAtMs := nowMs,
              execution := some
                { ok := false, summary := errorMsg, atMs := nowMs,
                  threadId := codex.threadId, usage := codex.usage, error := some errorMsg } }
            ({ ok := false, status := some "failed" }, some saved)

/-! ## TODO service (`src/nanobot/agent/tools/todo/`)

`models.py` defines the store shape; `service.py` the actions.  Date/time
strings (`created_at`, `due`, `now`) are embedded as their parsed POSIX
timestamps (`_parse_due_datetime` / `_parse_general_datetime` values);
`today_date()` stays a string compared for equality, exactly as
`_action_review_daily` uses it. -/

/-- `TodoStatus` (todo/models.py): `Literal["todo","doing","blocked","done","archived"]`. -/
inductive TodoStatus where
  | todo | doing | blocked | done | archived
deriving Repr, DecidableEq

/-- `OPEN_STATUSES` (todo/models.py). -/
def TodoStatus.isOpen : TodoStatus → Bool
  | .todo | .doing | .blocked => true
  | _ => false

/-- `TodoItem` (todo/models.py); `due`, `created_at`, `updated_at`,
`completed_at` carry the parsed timestamps of the stored strings. -/
structure TodoItem where
  id : String
  title : String
  status : TodoStatus := .todo
  priority : Int := 2
  note : String := ""
  due : Option Int := none
  tags : List String := []
  dependsOn : List String := []
  createdAt : Int := 0
  updatedAt : Int := 0
  completedAt : Option Int := none
deriving Repr, DecidableEq

/-- `TodoStoreMeta` (todo/models.py). -/
structure TodoStoreMeta where
  version : Int := 1
  lastId : Int := 0
  lastReviewDate : Option String := none
  lastReviewSummary : Option String := none
  createdAt : String := ""
  updatedAt : String := ""
deriving Repr, DecidableEq

/-- `TodoStore` (todo/models.py). -/
structure TodoStore where
  meta : TodoStoreMeta
  items : List TodoItem
deriving Repr, DecidableEq

/-- `TodoService._is_overdue` (service.py lines 588-591): open status and
parsed due strictly before `now`. -/
def isOverdue (item : TodoItem) (now : Int) : Bool :=
  item.status.isOpen && match item.due with
    | none => false
    | some d => decide (d < now)

/-- The stats dict built by `TodoService._compute_stats`
(service.py lines 393-414). -/
structure TodoStats where
  total : Nat
  openCount : Nat
  overdue : Nat
  byStatus : List (TodoStatus × Nat)
  priorityDistribution : List (Int × Nat)
  lastReviewDate : Option String
  lastReviewSummary : Option String
deriving Repr, DecidableEq

/-- `TodoService._compute_stats` (service.py lines 393-414). -/
def computeStats (store : TodoStore) (now : Int) : TodoStats :=
  let count := fun (st : TodoStatus) => (store.items.filter (·.status = st)).length
  let byStatus := [TodoStatus.todo, .doing, .blocked, .done, .archived].map
    (fun st => (st, count st))
  let overdue := (store.items.filter (fun i => i.status.isOpen ∧ isOverdue i now)).length
  let active := store.items.filter (·.status ≠ .archived)
  let priorityDistribution := [(1 : Int), 2, 3, 4].map
    (fun p => (p, (active.filter (·.priority = p)).length))
  { total := store.items.length
    openCount := count .todo + count .doing + count .blocked
    overdue := overdue
    byStatus := byStatus
    priorityDistribution := priorityDistribution
    lastReviewDate := store.meta.lastReviewDate
    lastReviewSummary := store.meta.lastReviewSummary }

/-- Ordering on `due_ts` (service.py lines 517-520): a missing due date
sorts as `float("inf")`. -/
def dueLe : Option Int → Option Int → Bool
  | _, none => true
  | none, some _ => false
  | some a, some b => a ≤ b

/-- The `priority` sort key of `TodoService._sort_items`
(service.py line 523): lexicographic `(priority, due_ts, created_ts)`. -/
def priorityKeyLe (a b : TodoItem) : Bool :=
  if a.priority ≠ b.priority then a.priority ≤ b.priority
  else if a.due ≠ b.due then dueLe a.due b.due
  else a.createdAt ≤ b.createdAt

/-- Stable insertion used to embed Python's stable ascending `sorted`. -/
def stableInsert (le : TodoItem → TodoItem → Bool) (x : TodoItem) :
    List TodoItem → List TodoItem
  | [] => [x]
  | y :: ys => if le y x then y :: stableInsert le x ys else x :: y :: ys

/-- `TodoService._sort_items` (service.py lines 494-528), `priority` key in
ascending order — the branch `_action_review_daily` invokes; Python's
`sorted` is stable, matching insertion after equal keys. -/
def sortItemsPriorityAsc (items : List TodoItem) : List TodoItem :=
  items.foldl (fun acc x => stableInsert priorityKeyLe x acc) []

/-- The public-item dict of `TodoService._to_public_item`
(service.py lines 571-586). -/
structure PublicItem where
  id : String
  title : String
  status : TodoStatus
  priority : Int
  due : Option Int
  tags : List String
  dependsOn : List String
  note : String
  createdAt : Int
  updatedAt : Int
  completedAt : Option Int
  overdue : Bool
deriving Repr, DecidableEq

/-- `TodoService._to_public_item` (service.py lines 571-586). -/
def toPublicItem (item : TodoItem) (now : Int) : PublicItem :=
  { id := item.id, title := item.title, status := item.status,
    priority := item.priority, due := item.due, tags := item.tags,
    dependsOn := item.dependsOn, note := item.note, createdAt := item.createdAt,
    updatedAt := item.updatedAt, completedAt := item.completedAt,
    overdue := isOverdue item now }

/-- The structured payload every `TodoService` action returns
(`_success` / `_error`, service.py lines 690-715); `stats := none` stands
for the empty stats dict of `_error`. -/
structure TodoPayload where
  ok : Bool
  action : String
  summary : String
  items : List PublicItem
  stats : Option TodoStats
  errors : List String
deriving Repr, DecidableEq

/-- `TodoService._success` (service.py lines 690-705). -/
def todoSuccess (action summary : String) (items : List PublicItem)
    (stats : Option TodoStats) : TodoPayload :=
  { ok := true, action := action, summary := summary, items := items,
    stats := stats, errors := [] }

/-- `TodoService._error` (service.py lines 707-715). -/
def todoError (action message : String) : TodoPayload :=
  { ok := false, action := action, summary := message, items := [],
    stats := none, errors := [message] }

/-- `TodoService._action_review_daily` (service.py lines 322-351).

`today` is `today_date()`, `now` the parsed `datetime.now()` used for
overdue checks, `nowIso` the `now_iso()` stamp written to `meta.updated_at`
(kept as an opaque string).  Returns the payload and the store state after
the call (the early-return branch performs no save and leaves the store
untouched). -/
def reviewDaily (store : TodoStore) (today : String) (now : Int)
    (nowIso : String) : TodoPayload × TodoStore :=
  if store.meta.lastReviewDate = some today then
    (todoSuccess "review_daily" "Daily review already completed today." []
      (some (computeStats store now)), store)
  else
    let openItems := store.items.filter (·.status.isOpen)
    let ranked := (sortItemsPriorityAsc openItems).take 5
    let stats := computeStats store now
    let summary := "Daily review: " ++ toString stats.total ++ " total, "
      ++ toString stats.openCount ++ " open, " ++ toString stats.overdue
      ++ " overdue, top focus: "
      ++ (if ranked.isEmpty then "none"
          else joinWith ", " (ranked.map (·.id)))
    let store' := { store with meta := { store.meta with
      lastReviewDate := some today, lastReviewSummary := some summary,
      updatedAt := nowIso } }
    (todoSuccess "review_daily" summary (ranked.map (toPublicItem · now))
      (some stats), store')

/-- The handler-name table of `TodoService.handle` (service.py lines 31-45). -/
def todoHandlerNames : List String :=
  ["init", "add", "list", "update", "bulk_update", "move", "done", "remove",
   "bulk_remove", "archive", "reorder", "stats", "review_daily"]

/-- `TodoService.handle` (service.py lines 28-53).

The individual handlers touch the on-disk store, so they are passed in as
`impl`, one `Except String TodoPayload`-valued function per action name
with `.error` standing for a raised exception; `κ` is the type of the
keyword arguments forwarded untouched.  `handle` itself never lets an
exception escape: an unknown action and a raised exception both map to the
`_error` payload. -/
def todoHandle {κ : Type} (impl : String → κ → Except String TodoPayload)
    (action : String) (kw : κ) : TodoPayload :=
  let actionName := pyLower (pyStrip action)
  if todoHandlerNames.contains actionName then
    match impl actionName kw with
    | .ok payload => payload
    | .error e => todoError actionName e
  else
    todoError actionName ("Unsupported action: " ++ actionName)

/-! ## Outbound policy (`src/nanobot/agent/runtime/outbound_policy.py`)

Filesystem checks (`Path.exists`, `mimetypes.guess_type`, `Path.resolve`)
are oracle parameters `isImageFile` / `resolvePath`. -/

/-- The `_recent_image_context` metadata entry
(`{path, turns_left}`, outbound_policy.py lines 138-144). -/
structure RecentImageCtx where
  path : String
  turnsLeft : Int
deriving Repr, DecidableEq

/-- An entry of `Session.messages` as appended by `session.add_message`
(modelled from the spec: the session manager module is not part of `src/`;
§3 gives entries `{role, content, tool_calls?, ..., tools_used?}` and
`AgentLoop._process_message` appends exactly role, content and an optional
`tools_used` list). -/
structure SessionEntry where
  role : String
  content : String
  toolsUsed : Option (List String) := none
deriving Repr, DecidableEq

/-- Modelled from the spec: `Session`
(`{key, messages[], metadata{}, last_consolidated}`, §3; the defining
module is not part of `src/`).  Of `metadata` only the
`_recent_image_context` key is relevant to the embedded code paths. -/
structure SessionModel where
  key : String
  messages : List SessionEntry := []
  recentImage : Option RecentImageCtx := none
  lastConsolidated : Nat := 0
deriving Repr, DecidableEq

/-- `OutboundPolicy.extract_latest_image` (outbound_policy.py lines
124-136): last media entry (scanning reversed) whose stripped text is a
readable image file, resolved. -/
def extractLatestImage (isImageFile : String → Bool)
    (resolvePath : String → String) (media : List String) : Option String :=
  (media.reverse.filterMap (fun candidate =>
    let text := pyStrip candidate
    if text ≠ "" ∧ isImageFile text then some (resolvePath text) else none)).head?

/-- `OutboundPolicy.consume_recent_image` (outbound_policy.py lines
146-170): returns the metadata entry after the call and the reused path
(`none` when nothing is reused).  The `isinstance` guards of the source
are satisfied by construction in this typed model. -/
def consumeRecentImage (isImageFile : String → Bool)
    (recent : Option RecentImageCtx) : Option RecentImageCtx × Option String :=
  match recent with
  | none => (none, none)
  | some ctx =>
    if ctx.turnsLeft ≤ 0 then (none, none)
    else if ¬isImageFile ctx.path then (none, none)
    else
      let turnsLeft := ctx.turnsLeft - 1
      (if turnsLeft ≤ 0 then none
       else some { path := ctx.path, turnsLeft := turnsLeft }, some ctx.path)

/-! ## LLM context and provider shapes

`ContextBuilder` (`nanobot/agent/context.py`) and `LLMProvider`
(`nanobot/providers/base.py`) are not part of `src/`; their shapes are
modelled from the spec (§4.E, §6). -/

/-- `ToolCallRequest` of the provider response (`{id, name, arguments}`,
spec §6); the argument map is carried in its serialized form, since the
loop only forwards it. -/
structure ToolCallReq where
  id : String
  name : String
  arguments : String
deriving Repr, DecidableEq

/-- `LLMResponse` (`{content?, reasoning_content?, tool_calls?}`, spec §6;
`has_tool_calls = tool_calls?.length > 0`). -/
structure LLMResponse where
  content : Option String := none
  reasoningContent : Option String := none
  toolCalls : List ToolCallReq := []
deriving Repr, DecidableEq

/-- The tool-call dict the loop embeds into assistant context messages
(loop.py lines 254-264): `{id, type: "function", function: {name,
arguments}}`. -/
structure ToolCallDict where
  id : String
  name : String
  arguments : String
deriving Repr, DecidableEq

/-- Content of a context message.  Modelled from the spec (§4.E): a plain
text string, or — when media contains images — a heterogeneous list of
`image_url` parts (identified here by the image path underlying the data
URL) followed by a text part. -/
inductive CtxContent where
  | empty
  | text (s : String)
  | withImages (imagePaths : List String) (s : String)
deriving Repr, DecidableEq

/-- A message of the LLM conversation list built by `ContextBuilder`
(modelled from the spec, §4.E). -/
structure CtxMsg where
  role : String
  content : CtxContent := .empty
  toolCalls : List ToolCallDict := []
  toolCallId : Option String := none
  name : Option String := none
  reasoningContent : Option String := none
deriving Repr, DecidableEq

/-- Modelled from the spec: `ContextBuilder.build_messages` (§4.E)
prepends a system prompt, appends redacted history entries (role/content
only) and finally the user entry, which gains `image_url` parts when the
media list contains images. -/
def buildMessages (systemPrompt : String) (isImageFile : String → Bool)
    (history : List (String × String)) (currentMessage : String)
    (media : Option (List String)) : List CtxMsg :=
  let historyMsgs := history.map
    (fun h => ({ role := h.1, content := .text h.2 } : CtxMsg))
  let images := (media.getD []).filter isImageFile
  let userMsg : CtxMsg :=
    if images.isEmpty then { role := "user", content := .text currentMessage }
    else { role := "user", content := .withImages images currentMessage }
  ({ role := "system", content := .text systemPrompt } :: historyMsgs) ++ [userMsg]

/-- Modelled from the spec: `ContextBuilder.add_assistant_message` (§4.E),
a trivial shape helper preserving `reasoning_content`. -/
def addAssistantMessage (messages : List CtxMsg) (content : Option String)
    (toolCalls : List ToolCallDict) (reasoningContent : Option String) :
    List CtxMsg :=
  messages ++ [{ role := "assistant",
                 content := match content with | none => .empty | some s => .text s,
                 toolCalls := toolCalls, reasoningContent := reasoningContent }]

/-- Modelled from the spec: `ContextBuilder.add_tool_result` (§4.E). -/
def addToolResult (messages : List CtxMsg) (toolCallId : String)
    (name : String) (result : String) : List CtxMsg :=
  messages ++ [{ role := "tool", content := .text result,
                 toolCallId := some toolCallId, name := some name }]

/-! ## Agent loop (`src/nanobot/agent/loop.py`) -/

/-- Split a string at the first occurrence of a (non-empty) separator. -/
def splitFirst (sep s : String) : Option (String × String) :=
  (listSplitFirst sep.data (s.data.length + 1) s.data).map
    (fun p => (String.mk p.1, String.mk p.2))

/-- One rewrite step of `re.sub(r"<think>[\s\S]*?</think>", "", text)`:
the leftmost match runs from a literal `<think>` to the nearest following
`</think>`. -/
def stripThinkAux : Nat → String → String
  | 0, s => s
  | fuel + 1, s =>
    match splitFirst "<think>" s with
    | none => s
    | some (before, rest) =>
      match splitFirst "</think>" rest with
      | none => s
      | some (_, tail) => before ++ stripThinkAux fuel tail

/-- `AgentLoop._strip_think` (loop.py lines 198-203): remove
`<think>…</think>` blocks, then `.strip() or None`. -/
def stripThink : Option String → Option String
  | none => none
  | some text =>
    if text = "" then none
    else
      let cleaned := pyStrip (stripThinkAux text.length text)
      if cleaned = "" then none else some cleaned

/-- Result of `AgentLoop._run_agent_loop`: final content, tools used, the
number of provider calls made (the final value of `iteration`) and the
accumulated conversation. -/
structure LoopResult where
  finalContent : Option String
  toolsUsed : List String
  calls : Nat
  messages : List CtxMsg
deriving Repr, DecidableEq

/-- The `while iteration < max_iterations` body of
`AgentLoop._run_agent_loop` (loop.py lines 236-298), structurally recursed
on the remaining iteration budget.

`provider` is the `LLMProvider.chat` oracle, indexed by the number of
calls already made and given the current message list; `execTool` is
`self.tools.execute`; `hasProgress` tells whether an `on_progress`
callback was supplied (it gates the interim-text retry). -/
def runLoopAux (provider : Nat → List CtxMsg → LLMResponse)
    (execTool : String → String → String) (hasProgress : Bool) :
    Nat → List CtxMsg → List String → Bool → Nat → LoopResult
  | 0, messages, toolsUsed, _, calls =>
    { finalContent := none, toolsUsed := toolsUsed, calls := calls,
      messages := messages }
  | remaining + 1, messages, toolsUsed, textOnlyRetried, calls =>
    let response := provider calls messages
    if ¬response.toolCalls.isEmpty then
      let toolCallDicts := response.toolCalls.map (fun tc =>
        ({ id := tc.id, name := tc.name, arguments := tc.arguments } : ToolCallDict))
      let messages1 := addAssistantMessage messages response.content toolCallDicts
        response.reasoningContent
      let step := response.toolCalls.foldl (fun acc tc =>
        (addToolResult acc.1 tc.id tc.name (execTool tc.name tc.arguments),
         acc.2 ++ [tc.name])) (messages1, toolsUsed)
      runLoopAux provider execTool hasProgress remaining step.1 step.2
        textOnlyRetried (calls + 1)
    else
      let finalContent := stripThink response.content
      if hasProgress ∧ toolsUsed.isEmpty ∧ ¬textOnlyRetried ∧ finalContent.isSome then
        runLoopAux provider execTool hasProgress remaining
          (addAssistantMessage messages response.content [] response.reasoningContent)
          toolsUsed true (calls + 1)
      else
        { finalContent := finalContent, toolsUsed := toolsUsed,
          calls := calls + 1, messages := messages }

/-- `AgentLoop._run_agent_loop` (loop.py lines 215-303), including the
post-loop "max iterations" notice. -/
def runAgentLoop (provider : Nat → List CtxMsg → LLMResponse)
    (execTool : String → String → String) (hasProgress : Bool)
    (maxIterations : Nat) (initialMessages : List CtxMsg) : LoopResult :=
  let r := runLoopAux provider execTool hasProgress maxIterations
    initialMessages [] false 0
  let notice := "Reached " ++ toString maxIterations ++ " iterations without completion."
  if r.finalContent.isNone ∧ maxIterations ≤ r.calls then
    { r with finalContent := some notice }
  else r

/-- `InboundMessage` (`nanobot/bus/events.py`, not part of `src/`;
modelled from the spec §3): of `metadata` only `message_id` is read by the
embedded path, and it is only forwarded to tool contexts. -/
structure InboundMsgModel where
  channel : String
  senderId : String
  chatId : String
  content : String
  media : List String := []
deriving Repr, DecidableEq

/-- Modelled from the spec: `session_key` defaults to
`"{channel}:{chat_id}"` (§3). -/
def InboundMsgModel.sessionKey (msg : InboundMsgModel) : String :=
  msg.channel ++ ":" ++ msg.chatId

/-- `OutboundMessage` restricted to the fields `_process_message` sets on
its reply (channel, chat id, content; metadata is passed through). -/
structure OutboundModel where
  channel : String
  chatId : String
  content : String
deriving Repr, DecidableEq

/-- Everything observable about one `AgentLoop._process_message` call on a
non-system message: the session state that was persisted, the returned
reply, whether the memory-window branch invoked `_consolidate_memory`, the
message snapshot handed to the background `/new` archival task, the
effective media list and the initial LLM context, and the raw loop result. -/
structure ProcessResult where
  session : SessionModel
  reply : Option OutboundModel
  launchedConsolidation : Bool
  archivedForNew : Option (List SessionEntry) := none
  effectiveMedia : List String := []
  initialMessages : List CtxMsg := []
  loopResult : LoopResult := { finalContent := none, toolsUsed := [], calls := 0, messages := [] }
deriving Repr, DecidableEq

/-- `_process_message` routes `channel == "system"` to
`_process_system_message` (loop.py lines 367-368); that subagent-return
path is outside the embedded claims. -/
inductive ProcessOutcome where
  | systemRouted
  | normal (r : ProcessResult)
deriving Repr, DecidableEq

/-- Modelled from the spec: `session.get_history(max_messages)` returns
the last `max_messages` entries as role/content pairs (§4.K step 6; the
session manager module is not part of `src/`, the in-memory variant in
`tests/test_agent_output_redaction.py` behaves identically). -/
def getHistory (maxMessages : Nat) (session : SessionModel) :
    List (String × String) :=
  let recent := if session.messages.length > maxMessages
    then session.messages.drop (session.messages.length - maxMessages)
    else session.messages
  recent.map (fun m => (m.role, m.content))

/-- Oracles standing for the collaborators `_process_message` consults:
the LLM provider, the tool registry, the redaction policy closed over the
redactor state (`_redact_text`), the media-path normalizer
(`_normalize_media_paths`, filesystem-dependent), the image-file check and
path resolver of the outbound policy, the system prompt produced by
`ContextBuilder`, and the effect of an awaited `_consolidate_memory` call
on the session. -/
structure LoopEnv where
  provider : Nat → List CtxMsg → LLMResponse
  execTool : String → String → String
  redactText : String → String
  normMedia : List String → List String
  isImageFile : String → Bool
  resolvePath : String → String
  systemPrompt : String
  consolidateEffect : SessionModel → SessionModel

/-- The non-slash tail of `AgentLoop._process_message` (loop.py lines
403-454): memory-window check, image carry-over, context build, loop run,
turn persistence and reply. -/
def mainTurn (env : LoopEnv) (consolidating : List String)
    (memoryWindow maxIterations : Nat) (hasProgress : Bool)
    (msg : InboundMsgModel) (session : SessionModel) : ProcessResult :=
  let launch : Bool := decide (session.messages.length > memoryWindow)
    && !consolidating.contains session.key
  let session1 := if launch then env.consolidateEffect session else session
  let incomingMedia := env.normMedia msg.media
  let latestImage := extractLatestImage env.isImageFile env.resolvePath incomingMedia
  let afterImage : SessionModel × List String :=
    match latestImage with
    | some image =>
      ({ session1 with recentImage := some { path := image, turnsLeft := 2 } },
       incomingMedia)
    | none =>
      let consumed := consumeRecentImage env.isImageFile session1.recentImage
      let effective := match consumed.2 with
        | some recent =>
          if ¬incomingMedia.contains recent then incomingMedia ++ [recent]
          else incomingMedia
        | none => incomingMedia
      ({ session1 with recentImage := consumed.1 }, effective)
  let session2 := afterImage.1
  let effectiveMedia := afterImage.2
  let initialMessages := buildMessages env.systemPrompt env.isImageFile
    (getHistory memoryWindow session2) msg.content
    (if effectiveMedia.isEmpty then none else some effectiveMedia)
  let lr := runAgentLoop env.provider env.execTool hasProgress
    maxIterations initialMessages
  let finalContent := env.redactText
    (lr.finalContent.getD "I've completed processing but have no response to give.")
  let session3 := { session2 with messages := session2.messages ++
    [{ role := "user", content := msg.content },
     { role := "assistant", content := finalContent,
       toolsUsed := if lr.toolsUsed.isEmpty then none else some lr.toolsUsed }] }
  { session := session3
    reply := some
      { channel := msg.channel, chatId := msg.chatId, content := finalContent }
    launchedConsolidation := launch
    effectiveMedia := effectiveMedia
    initialMessages := initialMessages
    loopResult := lr }

/-- `AgentLoop._process_message` (loop.py lines 348-454) for one inbound
message.

`consolidating` is the `self._consolidating` key set at entry,
`memoryWindow` / `maxIterations` the loop configuration, `hasProgress`
whether an `on_progress` callback was passed, and `session` the state
`self.sessions.get_or_create(key)` returns for the effective session key
(`session_key or msg.session_key`). -/
def processMessage (env : LoopEnv) (consolidating : List String)
    (memoryWindow maxIterations : Nat) (hasProgress : Bool)
    (msg : InboundMsgModel) (session : SessionModel) : ProcessOutcome :=
  if msg.channel = "system" then .systemRouted
  else
    let cmd := pyLower (pyStrip msg.content)
    if cmd = "/new" then
      -- Snapshot, clear, save, invalidate; archival runs in a detached
      -- task on a temporary session and cannot affect this result.
      let messagesToArchive := session.messages
      let cleared := { session with messages := [], lastConsolidated := 0 }
      .normal
        { session := cleared
          reply := some
            { channel := msg.channel, chatId := msg.chatId,
              content := "New session started. Memory consolidation in progress." }
          launchedConsolidation := false
          archivedForNew := some messagesToArchive }
    else if cmd = "/help" then
      .normal
        { session := session
          reply := some
            { channel := msg.channel, chatId := msg.chatId,
              content := "nanobot commands:\n/new - Start a new conversation\n/help - Show available commands" }
          launchedConsolidation := false }
    else .normal (mainTurn env consolidating memoryWindow maxIterations
      hasProgress msg session)

/-! ## Redactor (`src/nanobot/utils/redaction.py`)

`SensitiveOutputRedactor.redact` is an ordered pipeline of `re.sub`
applications.  Each regex of the module is embedded as a matcher over
`List Char` that reproduces the leftmost-match, greedy-with-backtracking
semantics of the Python `re` engine for that particular pattern (every
pattern here is simple enough that the greedy choice is forced; the spots
where the engine would backtrack — trailing `\b` after a greedy run,
`\s*.+$` over trailing whitespace — are resolved explicitly below).
Matchers receive the character preceding the current position to decide
`^`, `\b` and lookbehind assertions, which in these patterns only ever
inspect one character. -/

namespace Redact

def dquoteC : Char := Char.ofNat 34
def squoteC : Char := Char.ofNat 39
def backtickC : Char := Char.ofNat 96
def lbraceC : Char := Char.ofNat 123
def rbraceC : Char := Char.ofNat 125

/-- `\w` on the ASCII inputs the pipeline handles. -/
def isWordChar (c : Char) : Bool := c.isAlphanum ∨ c = '_'

def isWordOpt : Option Char → Bool
  | none => false
  | some c => isWordChar c

def isQuoteChar (c : Char) : Bool := c = dquoteC ∨ c = squoteC

/-- Case-sensitive literal match returning the consumed prefix. -/
def matchLit (lit s : List Char) : Option (List Char × List Char) :=
  if s.take lit.length = lit then some (lit, s.drop lit.length) else none

/-- Case-insensitive literal match returning the original consumed
characters (backreferences keep the source casing). -/
def matchLitCI : List Char → List Char → Option (List Char × List Char)
  | [], s => some ([], s)
  | _ :: _, [] => none
  | l :: ls, c :: cs =>
    if c.toLower = l.toLower then
      (matchLitCI ls cs).map (fun p => (c :: p.1, p.2))
    else none

/-- A match attempt at one position: `(replacement, consumed, rest)`. -/
abbrev MatchFun := Option Char → List Char → Option (List Char × List Char × List Char)

/-- Leftmost non-overlapping substitution: the core of `re.sub`.  The
scanner tries the matcher at every position from the left; on a match it
emits the replacement and resumes after the consumed characters (every
matcher below consumes at least one character; the fuel equals the input
length). -/
def scanSub (f : MatchFun) : Nat → Option Char → List Char → List Char
  | 0, _, s => s
  | _ + 1, _, [] => []
  | fuel + 1, prev, c :: cs =>
    match f prev (c :: cs) with
    | some (rep, consumed, rest) =>
      let prev' := match consumed.getLast? with
        | some d => some d
        | none => prev
      rep ++ scanSub f fuel prev' rest
    | none => c :: scanSub f fuel (some c) cs

def runSub (f : MatchFun) (s : List Char) : List Char :=
  scanSub f s.length none s

/-! ### `_WORKSPACE_LINE_RE` / `_CHAT_ID_LINE_RE`

`(?im)^(\s*LIT\s*).+$`: anchored at a line start (`prev` is `none` or a
newline); both `\s*` runs are greedy and may cross newlines; `.+$` then
takes the rest of that line.  When everything after the literal is
whitespace the engine backtracks the second `\s*` until `.` can match the
last non-newline whitespace character. -/

/-- Index (from the front) of the last non-newline character, if any. -/
def lastNonNewlineIdx (w : List Char) : Option Nat :=
  match w.reverse.findIdx? (· ≠ '\n') with
  | none => none
  | some k => some (w.length - 1 - k)

def matchLinePattern (lit ph : List Char) : MatchFun := fun prev s =>
  if prev = none ∨ prev = some '\n' then
    let lead := s.takeWhile isPySpace
    let s1 := s.drop lead.length
    match matchLitCI lit s1 with
    | none => none
    | some (litM, rest) =>
      if rest.isEmpty then none
      else
        let w := rest.takeWhile isPySpace
        let r2 := rest.drop w.length
        if ¬r2.isEmpty then
          let b := r2.takeWhile (· ≠ '\n')
          some (lead ++ litM ++ w ++ ph, lead ++ litM ++ w ++ b, r2.drop b.length)
        else
          match lastNonNewlineIdx w with
          | none => none
          | some k =>
            some (lead ++ litM ++ w.take k ++ ph,
              lead ++ litM ++ w.take (k + 1), w.drop (k + 1))
  else none

/-! ### `_CHAT_ID_FIELD_RE` and `_KV_SECRET_RE`

Both end in `\s*[:=]\s*["\']?` followed by the value group
`([^"\'\s,}\]]+)`; the shared tail matcher returns the group-1 suffix and
the value.  Quote/whitespace backtracking cannot rescue a failed value
match because quotes and whitespace are excluded from the value class. -/

def isKvValueChar (c : Char) : Bool :=
  ¬(c = dquoteC ∨ c = squoteC ∨ isPySpace c ∨ c = ',' ∨ c = rbraceC ∨ c = ']')

/-- Matches `\s*[:=]\s*["\']?` then the value run; returns
`(group1-suffix, value, rest)`. -/
def matchKvTail (s : List Char) : Option (List Char × List Char × List Char) :=
  let w1 := s.takeWhile isPySpace
  match s.drop w1.length with
  | [] => none
  | c :: r1 =>
    if c = ':' ∨ c = '=' then
      let w2 := r1.takeWhile isPySpace
      let r2 := r1.drop w2.length
      let quoted := match r2 with
        | q :: r3 => if isQuoteChar q then ([q], r3) else (([] : List Char), r2)
        | [] => (([] : List Char), r2)
      let v := quoted.2.takeWhile isKvValueChar
      if v.isEmpty then none
      else some (w1 ++ [c] ++ w2 ++ quoted.1, v, quoted.2.drop v.length)
    else none

/-- `_CHAT_ID_FIELD_RE`:
`(?i)(\bchat[_\s-]?id\b\s*[:=]\s*["\']?)([^"\'\s,}\]]+)`.  The optional
separator commits greedily; if `id` matches after a separator, dropping
the separator cannot succeed (`id` never starts with a separator char). -/
def matchChatIdField (ph : List Char) : MatchFun := fun prev s =>
  if isWordOpt prev then none
  else
    match matchLitCI "chat".data s with
    | none => none
    | some (m1, r1) =>
      let sepId : Option (List Char × List Char) :=
        match r1 with
        | c :: r2 =>
          if c = '_' ∨ isPySpace c ∨ c = '-' then
            match matchLitCI "id".data r2 with
            | some (m2, r3) => some (c :: m2, r3)
            | none =>
              match matchLitCI "id".data r1 with
              | some (m2, r3) => some (m2, r3)
              | none => none
          else
            match matchLitCI "id".data r1 with
            | some (m2, r3) => some (m2, r3)
            | none => none
        | [] => none
      match sepId with
      | none => none
      | some (mid, r3) =>
        -- `\b` after `id`: the next character must not be a word character.
        match r3.head? with
        | some c => if isWordChar c then none else
            match matchKvTail r3 with
            | none => none
            | some (g1tail, v, rest) =>
              let g1 := m1 ++ mid ++ g1tail
              some (g1 ++ ph, g1 ++ v, rest)
        | none => none

/-- The keyword alternation of `_KV_SECRET_RE`:
`api[_-]?key|token|secret|password|client[_-]?secret|authorization`, tried
in source order (no two alternatives can match at one position).  Returns
the consumed characters. -/
def matchKvKeyword (s : List Char) : Option (List Char × List Char) :=
  let sepVariant := fun (a b : String) =>
    match matchLitCI a.data s with
    | none => none
    | some (m1, r1) =>
      match r1 with
      | c :: r2 =>
        if c = '_' ∨ c = '-' then
          match matchLitCI b.data r2 with
          | some (m2, r3) => some (m1 ++ [c] ++ m2, r3)
          | none =>
            match matchLitCI b.data r1 with
            | some (m2, r3) => some (m1 ++ m2, r3)
            | none => none
        else
          match matchLitCI b.data r1 with
          | some (m2, r3) => some (m1 ++ m2, r3)
          | none => none
      | [] => none
  (sepVariant "api" "key") <|> (matchLitCI "token".data s)
    <|> (matchLitCI "secret".data s) <|> (matchLitCI "password".data s)
    <|> (sepVariant "client" "secret") <|> (matchLitCI "authorization".data s)

/-- `_KV_SECRET_RE`:
`(?i)(["\']?KEYWORD["\']?\s*[:=]\s*["\']?)([^"\'\s,}\]]+)` — note the
value class excludes `]` but admits `[`, and there is no word boundary
around the keyword. -/
def matchKvSecret (ph : List Char) : MatchFun := fun _ s =>
  let leading := match s with
    | q :: r => if isQuoteChar q then ([q], r) else (([] : List Char), s)
    | [] => (([] : List Char), s)
  match matchKvKeyword leading.2 with
  | none => none
  | some (kw, r1) =>
    let trailing := match r1 with
      | q :: r => if isQuoteChar q then ([q], r) else (([] : List Char), r1)
      | [] => (([] : List Char), r1)
    match matchKvTail trailing.2 with
    | none => none
    | some (g1tail, v, rest) =>
      let g1 := leading.1 ++ kw ++ trailing.1 ++ g1tail
      some (g1 ++ ph, g1 ++ v, rest)

/-! ### `_SESSION_KEY_RE`, `_BEARER_RE`, `_GENERIC_SK_RE`, `_SLACK_TOKEN_RE`

All end in a greedy character-class run followed by `\b`; the engine
backtracks the run to the longest prefix whose end is a word boundary. -/

/-- Longest prefix (of length ≥ `minLen` ≥ 1) of the greedy `run` whose
end forms a word boundary given the character that follows it. -/
def longestBoundaryTake (run rest : List Char) (minLen : Nat) :
    Option (List Char) :=
  let next := fun (j : Nat) => if h : j < run.length then some (run.get ⟨j, h⟩)
    else rest.head?
  let ok := fun (j : Nat) =>
    match j with
    | 0 => false
    | jj + 1 =>
      minLen ≤ jj + 1 ∧
        (isWordChar (run.getD jj ' ') ≠ isWordOpt (next (jj + 1)))
  match (List.range (run.length + 1)).reverse.find? (fun j => ok j) with
  | some j => some (run.take j)
  | none => none

def sessionChannels : List String :=
  ["cli", "telegram", "discord", "whatsapp", "feishu", "dingtalk", "slack",
   "email", "qq"]

def isSessionIdChar (c : Char) : Bool :=
  c.isAlphanum ∨ c = '_' ∨ c = '.' ∨ c = '@' ∨ c = '+' ∨ c = '-'

/-- `_SESSION_KEY_RE`:
`\b(cli|telegram|…|qq):([A-Za-z0-9_.@+\-]+)\b`, replaced via
`f"{m.group(1)}:{placeholder}"` (case-sensitive). -/
def matchSessionKey (ph : List Char) : MatchFun := fun prev s =>
  if isWordOpt prev then none
  else
    let tryChannel := fun (ch : String) =>
      match matchLit ch.data s with
      | none => none
      | some (mCh, r1) =>
        match r1 with
        | ':' :: r2 =>
          let run := r2.takeWhile isSessionIdChar
          match longestBoundaryTake run (r2.drop run.length) 1 with
          | none => none
          | some idPart =>
            some (mCh ++ [':'] ++ ph, mCh ++ [':'] ++ idPart,
              r2.drop idPart.length)
        | _ => none
    sessionChannels.foldl (fun acc ch => acc <|> tryChannel ch) none

def isBearerTokenChar (c : Char) : Bool :=
  c.isAlphanum ∨ c = '.' ∨ c = '_' ∨ c = '~' ∨ c = '+' ∨ c = '/' ∨ c = '=' ∨ c = '-'

/-- `_BEARER_RE`: `(?i)\bBearer\s+[A-Za-z0-9._~+/=\-]{8,}\b`, replaced by
the literal `Bearer ` followed by the placeholder. -/
def matchBearer (ph : List Char) : MatchFun := fun prev s =>
  if isWordOpt prev then none
  else
    match matchLitCI "bearer".data s with
    | none => none
    | some (m, r1) =>
      let w := r1.takeWhile isPySpace
      if w.isEmpty then none
      else
        let r2 := r1.drop w.length
        let run := r2.takeWhile isBearerTokenChar
        match longestBoundaryTake run (r2.drop run.length) 8 with
        | none => none
        | some tok =>
          some ("Bearer ".data ++ ph, m ++ w ++ tok, r2.drop tok.length)

def isSkTokenChar (c : Char) : Bool :=
  c.isAlphanum ∨ c = '.' ∨ c = '_' ∨ c = '=' ∨ c = '-'

/-- `_GENERIC_SK_RE`: `\bsk-[A-Za-z0-9._=\-]{8,}\b` (case-sensitive). -/
def matchGenericSk (ph : List Char) : MatchFun := fun prev s =>
  if isWordOpt prev then none
  else
    match matchLit "sk-".data s with
    | none => none
    | some (m, r1) =>
      let run := r1.takeWhile isSkTokenChar
      match longestBoundaryTake run (r1.drop run.length) 8 with
      | none => none
      | some tok => some (ph, m ++ tok, r1.drop tok.length)

def isSlackTokenChar (c : Char) : Bool := c.isAlphanum ∨ c = '-'

/-- `_SLACK_TOKEN_RE`:
`\bxox[abprs]-[A-Za-z0-9\-]{8,}\b|\bxapp-[A-Za-z0-9\-]{8,}\b`
(case-sensitive). -/
def matchSlackToken (ph : List Char) : MatchFun := fun prev s =>
  if isWordOpt prev then none
  else
    let finish := fun (m : List Char) (r : List Char) =>
      let run := r.takeWhile isSlackTokenChar
      match longestBoundaryTake run (r.drop run.length) 8 with
      | none => none
      | some tok => some (ph, m ++ tok, r.drop tok.length)
    let xox :=
      match matchLit "xox".data s with
      | none => none
      | some (m, r1) =>
        match r1 with
        | c :: '-' :: r2 =>
          if c = 'a' ∨ c = 'b' ∨ c = 'p' ∨ c = 'r' ∨ c = 's' then
            finish (m ++ [c, '-']) r2
          else none
        | _ => none
    let xapp :=
      match matchLit "xapp-".data s with
      | none => none
      | some (m, r1) => finish m r1
    xox <|> xapp

/-! ### Private endpoints and URLs

`_PRIVATE_ENDPOINT_RE`, `_PRIVATE_HOSTPORT_RE` and `_URL_RE`.  In the
dotted-quad groups `(?:\.\d{1,3}){k}` the greedy take of
`min(3, digit-run)` digits is equivalent to the engine's backtracking:
when more digits follow the taken ones, the required next element (`.`,
`:` or nothing) fails for every shorter take as well. -/

/-- One `\.\d{1,3}` group, greedy. -/
def matchDigitGroup (s : List Char) : Option (List Char × List Char) :=
  match s with
  | '.' :: r =>
    let run := r.takeWhile Char.isDigit
    if run.isEmpty then none
    else
      let d := run.take 3
      some ('.' :: d, r.drop d.length)
  | _ => none

/-- `k` consecutive `\.\d{1,3}` groups. -/
def matchDigitGroups : Nat → List Char → Option (List Char × List Char)
  | 0, s => some ([], s)
  | k + 1, s =>
    match matchDigitGroup s with
    | none => none
    | some (g, r) =>
      match matchDigitGroups k r with
      | none => none
      | some (gs, r') => some (g ++ gs, r')

/-- The private-host alternation shared by `_PRIVATE_ENDPOINT_RE` and
`_PRIVATE_HOSTPORT_RE`: `localhost | 127(\.\d{1,3}){3} | 0\.0\.0\.0 |
10(\.\d{1,3}){3} | 192\.168(\.\d{1,3}){2} |
172\.(1[6-9]|2\d|3[0-1])(\.\d{1,3}){2}` (with `(?i)` only `localhost` is
case-sensitive-relevant); the alternatives have pairwise distinct
viable prefixes, so trying them in source order is exact. -/
def matchPrivateHost (s : List Char) : Option (List Char × List Char) :=
  let withGroups := fun (lit : String) (k : Nat) =>
    match matchLit lit.data s with
    | none => none
    | some (m, r) =>
      match matchDigitGroups k r with
      | none => none
      | some (g, r') => some (m ++ g, r')
  let oct172 :=
    match matchLit "172.".data s with
    | none => none
    | some (m, r) =>
      let octet := match r with
        | '1' :: c :: r2 =>
          if '6' ≤ c ∧ c ≤ '9' then some (['1', c], r2) else none
        | '2' :: c :: r2 => if c.isDigit then some (['2', c], r2) else none
        | '3' :: c :: r2 =>
          if c = '0' ∨ c = '1' then some (['3', c], r2) else none
        | _ => none
      match octet with
      | none => none
      | some (o, r2) =>
        match matchDigitGroups 2 r2 with
        | none => none
        | some (g, r') => some (m ++ o ++ g, r')
  (matchLitCI "localhost".data s) <|> (withGroups "127" 3)
    <|> (matchLit "0.0.0.0".data s) <|> (withGroups "10" 3)
    <|> (withGroups "192.168" 2) <|> oct172

/-- The scheme alternation `(?:https?|wss?|socks5)://`, case-insensitive;
the optional `s` is greedy and `://` must follow. -/
def matchScheme (s : List Char) : Option (List Char × List Char) :=
  let sep := fun (p : List Char × List Char) =>
    match matchLit "://".data p.2 with
    | none => none
    | some (m2, r) => some (p.1 ++ m2, r)
  let withOptS := fun (lit : String) =>
    match matchLitCI lit.data s with
    | none => none
    | some (m, r) =>
      match r with
      | c :: r2 =>
        if c.toLower = 's' then
          match sep (m ++ [c], r2) with
          | some p => some p
          | none => sep (m, r)
        else sep (m, r)
      | [] => sep (m, r)
  (withOptS "http") <|> (withOptS "ws")
    <|> (match matchLitCI "socks5".data s with
         | none => none
         | some (m, r) => sep (m, r))

def isUrlPathChar (c : Char) : Bool :=
  ¬(isPySpace c ∨ c = dquoteC ∨ c = squoteC ∨ c = backtickC ∨ c = ')')

/-- Matches the whole `_PRIVATE_ENDPOINT_RE` body (scheme, private host,
optional `:port`, optional `/path`), returning consumed and rest; the
leading `\b` is checked by the caller. -/
def matchPrivateEndpointCore (s : List Char) : Option (List Char × List Char) :=
  match matchScheme s with
  | none => none
  | some (sch, r1) =>
    match matchPrivateHost r1 with
    | none => none
    | some (host, r2) =>
      let port := match r2 with
        | ':' :: r3 =>
          let run := r3.takeWhile Char.isDigit
          if run.isEmpty then (([] : List Char), r2)
          else
            let d := run.take 5
            (':' :: d, r3.drop d.length)
        | _ => (([] : List Char), r2)
      let path := match port.2 with
        | '/' :: r4 =>
          let run := r4.takeWhile isUrlPathChar
          ('/' :: run, r4.drop run.length)
        | _ => (([] : List Char), port.2)
      some (sch ++ host ++ port.1 ++ path.1, path.2)

/-- `_PRIVATE_ENDPOINT_RE` as a substitution matcher. -/
def matchPrivateEndpoint (ph : List Char) : MatchFun := fun prev s =>
  if isWordOpt prev then none
  else
    match matchPrivateEndpointCore s with
    | none => none
    | some (m, rest) => some (ph, m, rest)

/-- `_PRIVATE_HOSTPORT_RE`: `\b(host):\d{1,5}\b`; the trailing `\b` after
the greedy digit run forces the whole run (≤ 5 digits) to be taken and a
non-word character (or the end) to follow. -/
def matchPrivateHostport (ph : List Char) : MatchFun := fun prev s =>
  if isWordOpt prev then none
  else
    match matchPrivateHost s with
    | none => none
    | some (host, r1) =>
      match r1 with
      | ':' :: r2 =>
        let run := r2.takeWhile Char.isDigit
        if run.isEmpty ∨ run.length > 5 then none
        else
          let rest := r2.drop run.length
          if isWordOpt rest.head? then none
          else some (ph, host ++ [':'] ++ run, rest)
      | _ => none

/-- `_URL_RE`: `(?i)\b(?:https?|wss?|socks5)://[^\s"'`]+` combined with
`_replace_url_if_private` (redaction.py lines 202-208): a URL is consumed
either way; it is replaced only when `_PRIVATE_ENDPOINT_RE.fullmatch`
accepts it (the greedy parse consumes it entirely — every variation point
is a maximal-run choice, so the greedy parse is the unique maximal one) or
when it is one of the configured literal endpoints. -/
def matchUrl (literalEndpoints : List String) (ph : List Char) : MatchFun :=
  fun prev s =>
    if isWordOpt prev then none
    else
      match matchScheme s with
      | none => none
      | some (sch, r1) =>
        let run := r1.takeWhile isUrlPathChar
        if run.isEmpty then none
        else
          let url := sch ++ run
          let rest := r1.drop run.length
          let isPrivate : Bool := match matchPrivateEndpointCore url with
            | some (m, remainder) => m = url && remainder.isEmpty
            | none => false
          if isPrivate ∨ literalEndpoints.contains (String.mk url) then
            some (ph, url, rest)
          else
            some (url, url, rest)

/-! ### Path patterns -/

/-- `_TILDE_NANOBOT_PATH_RE`: `(?i)~[\\/]\.nanobot(?:[\\/][^\s"'`]+)*`.
The segment class admits slashes, so one greedy segment swallows the
remaining path; further groups then fail on a non-slash character. -/
def matchTildeNanobot (ph : List Char) : MatchFun := fun _ s =>
  match s with
  | '~' :: c :: rest =>
    if c = '/' ∨ c = '\\' then
      match matchLitCI ".nanobot".data rest with
      | none => none
      | some (m, r1) =>
        let segs := fun (r : List Char) (fuel : Nat) =>
          let rec go : Nat → List Char → List Char × List Char
            | 0, r => ([], r)
            | f + 1, r =>
              match r with
              | d :: r2 =>
                if d = '/' ∨ d = '\\' then
                  let run := r2.takeWhile isUrlPathChar
                  if run.isEmpty then ([], r)
                  else
                    let nxt := go f (r2.drop run.length)
                    (d :: run ++ nxt.1, nxt.2)
                else ([], r)
              | [] => ([], r)
          go fuel r
        let tail := segs r1 r1.length
        some (ph, '~' :: c :: m ++ tail.1, tail.2)
    else none
  | _ => none

def isWinSegChar (c : Char) : Bool :=
  ¬(c = '\\' ∨ c = '/' ∨ c = Char.ofNat 13 ∨ c = '\n' ∨ c = ':' ∨ c = '*'
    ∨ c = '?' ∨ c = dquoteC ∨ c = '<' ∨ c = '>' ∨ c = '|' ∨ isPySpace c)

/-- `_WINDOWS_ABS_PATH_RE`:
`(?ix)(?<![A-Za-z0-9])[A-Z]:[\\/](?:[^…\s]+[\\/])*[^…\s]*` — drive letter
(any letter under `(?i)`), colon, slash, then greedy `segment/` groups and
a final optional segment. -/
def matchWindowsPath (ph : List Char) : MatchFun := fun prev s =>
  let prevAlnum := match prev with
    | none => false
    | some c => c.isAlphanum
  if prevAlnum then none
  else
    match s with
    | d :: ':' :: c :: rest =>
      if d.isAlpha ∧ (c = '\\' ∨ c = '/') then
        let rec go : Nat → List Char → List Char × List Char
          | 0, r => ([], r)
          | f + 1, r =>
            let seg := r.takeWhile isWinSegChar
            match r.drop seg.length with
            | e :: r2 =>
              if (e = '\\' ∨ e = '/') ∧ ¬seg.isEmpty then
                let nxt := go f r2
                (seg ++ [e] ++ nxt.1, nxt.2)
              else (seg, r.drop seg.length)
            | [] => (seg, [])
        let tail := go rest.length rest
        some (ph, d :: ':' :: c :: tail.1, tail.2)
      else none
    | _ => none

def unixRootDirs : List String :=
  ["home", "Users", "root", "etc", "var", "opt", "tmp"]

/-- `_UNIX_ABS_PATH_RE`:
`(?x)(?<![:\w])/(?:home|Users|root|etc|var|opt|tmp)(?:/[^\s"'`]+)+` —
case-sensitive; the segment class admits `/`, so the first greedy segment
swallows the rest of the path. -/
def matchUnixPath (ph : List Char) : MatchFun := fun prev s =>
  let prevBad := match prev with
    | none => false
    | some c => c = ':' ∨ isWordChar c
  if prevBad then none
  else
    match s with
    | '/' :: rest =>
      let tryDir := fun (dir : String) =>
        match matchLit dir.data rest with
        | none => none
        | some (m, r1) =>
          let rec go : Nat → List Char → List Char × List Char
            | 0, r => ([], r)
            | f + 1, r =>
              match r with
              | '/' :: r2 =>
                let run := r2.takeWhile isUrlPathChar
                if run.isEmpty then ([], r)
                else
                  let nxt := go f (r2.drop run.length)
                  ('/' :: run ++ nxt.1, nxt.2)
              | _ => ([], r)
          let tail := go r1.length r1
          if tail.1.isEmpty then none
          else some (ph, '/' :: m ++ tail.1, tail.2)
      unixRootDirs.foldl (fun acc dir => acc <|> tryDir dir) none
    | _ => none

/-! ### Literal replacement and the full pipeline -/

/-- `SensitiveOutputRedactor._replace_literals` (redaction.py lines
182-191): plain `str.replace` of each configured literal (longest first),
plus the backslash-doubled variant of literals containing backslashes.
The state lists below are kept in the decreasing-length order the source
sorts them into. -/
def replaceLiterals (values : List String) (ph : String) (text : String) : String :=
  values.foldl (fun acc value =>
    if value = "" then acc
    else
      let acc1 := pyReplace acc value ph
      if value.data.contains '\\' then
        pyReplace acc1 (pyReplace value "\\" "\\\\") ph
      else acc1) text

/-- The constructed redactor state: the `enabled` flag and the literal
path/endpoint/secret sets collected by `__init__` /
`_add_default_paths` / `_add_extra_secrets` (environment-dependent),
each listed in decreasing length order. -/
structure RedactorState where
  enabled : Bool
  literalPaths : List String
  literalEndpoints : List String
  literalSecrets : List String

def PATH_PH : String := "[REDACTED_PATH]"
def ENDPOINT_PH : String := "[REDACTED_ENDPOINT]"
def SECRET_PH : String := "[REDACTED_SECRET]"
def CHAT_ID_PH : String := "[REDACTED_CHAT_ID]"

def applySub (f : MatchFun) (s : String) : String :=
  String.mk (runSub f s.data)

/-- `SensitiveOutputRedactor.redact` (redaction.py lines 96-143): the
ordered substitution pipeline. -/
def redact (st : RedactorState) (text : String) : String :=
  if ¬st.enabled ∨ text = "" then text
  else
    let s := text
    let s := applySub (matchLinePattern "Your workspace is at:".data PATH_PH.data) s
    let s := applySub (matchLinePattern "Chat ID:".data CHAT_ID_PH.data) s
    let s := applySub (matchChatIdField CHAT_ID_PH.data) s
    let s := applySub (matchSessionKey CHAT_ID_PH.data) s
    let s := replaceLiterals st.literalSecrets SECRET_PH s
    let s := replaceLiterals st.literalEndpoints ENDPOINT_PH s
    let s := replaceLiterals st.literalPaths PATH_PH s
    let s := applySub (matchKvSecret SECRET_PH.data) s
    let s := applySub (matchBearer SECRET_PH.data) s
    let s := applySub (matchGenericSk SECRET_PH.data) s
    let s := applySub (matchSlackToken SECRET_PH.data) s
    let s := applySub (matchPrivateEndpoint ENDPOINT_PH.data) s
    let s := applySub (matchPrivateHostport ENDPOINT_PH.data) s
    let s := applySub (matchUrl st.literalEndpoints ENDPOINT_PH.data) s
    let s := applySub (matchTildeNanobot PATH_PH.data) s
    let s := applySub (matchWindowsPath PATH_PH.data) s
    let s := applySub (matchUnixPath PATH_PH.data) s
    s

end Redact

/-! ## Verified properties -/

/-- A concrete redactor state as `__init__` builds it: enabled, the
default `~/.nanobot` path literals plus a workspace path (in the
decreasing-length order `_replace_literals` sorts into), no extra
secrets. -/
def exampleRedactorState : Redact.RedactorState :=
  { enabled := true
    literalPaths := ["/root/.nanobot/config.json", "/root/.nanobot", "/srv/wsp"]
    literalEndpoints := []
    literalSecrets := [] }

/-- **C1** (code_bug).  The spec requires `Redact(Redact(x)) == Redact(x)`
for all `x` and stability of the placeholders inside already-redacted
strings, but the value class `([^"\'\s,}\]]+)` of `_KV_SECRET_RE` admits
`[`, so a second pass re-matches `token: [REDACTED_SECRET` inside the
already-redacted string and rewrites it to `token: [REDACTED_SECRET]]`:
redaction is not idempotent. -/
theorem redact_not_idempotent_on_kv_secret :
    Redact.redact exampleRedactorState "token: abcdefgh123"
        = "token: [REDACTED_SECRET]"
    ∧ Redact.redact exampleRedactorState
        (Redact.redact exampleRedactorState "token: abcdefgh123")
        = "token: [REDACTED_SECRET]]"
    ∧ Redact.redact exampleRedactorState
        (Redact.redact exampleRedactorState "token: abcdefgh123")
        ≠ Redact.redact exampleRedactorState "token: abcdefgh123" := by
  refine ⟨by decide, by decide, by decide⟩

/-- **C3** (confirmed).  With codex enabled and dangerous full access
allowed, for any stored plan: a missing token yields
`missing_confirmation_token`; a token whose hash differs from the stored
`confirmation_token_hash` yields `invalid_confirmation_token`; a
successful codex execution saves the record with status `"executed"` and
an empty hash; a failed one saves status `"failed"` with the hash
preserved. -/
theorem execute_merge_token_gating_and_status
    (cfg : MergeConfig) (hash : String → String) (reportExists : Bool)
    (nowMs : Int) (record : MergePlanRecord) (codex : CodexOutcome)
    (planId tok : String)
    (hEnabled : cfg.enabled = true)
    (hAllow : cfg.allowDangerousFullAccess = true)
    (hPlan : pyStrip planId ≠ "") :
    (executeMerge cfg hash reportExists nowMs (some record) codex
        (some planId) none
      = ({ ok := false, errorCode := some "missing_confirmation_token" }, none))
    ∧ (pyStrip tok ≠ "" →
        hash (pyStrip tok) ≠ record.confirmationTokenHash →
        executeMerge cfg hash reportExists nowMs (some record) codex
            (some planId) (some tok)
          = ({ ok := false, errorCode := some "invalid_confirmation_token" }, none))
    ∧ (pyStrip tok ≠ "" →
        record.confirmationTokenHash ≠ "" →
        hash (pyStrip tok) = record.confirmationTokenHash →
        reportExists = true → codex.ok = true →
        (executeMerge cfg hash reportExists nowMs (some record) codex
            (some planId) (some tok)).1
            = { ok := true, status := some "executed" }
        ∧ ((executeMerge cfg hash reportExists nowMs (some record) codex
            (some planId) (some tok)).2.map (·.status)) = some "executed"
        ∧ ((executeMerge cfg hash reportExists nowMs (some record) codex
            (some planId) (some tok)).2.map (·.confirmationTokenHash)) = some "")
    ∧ (pyStrip tok ≠ "" →
        record.confirmationTokenHash ≠ "" →
        hash (pyStrip tok) = record.confirmationTokenHash →
        reportExists = true → codex.ok = false →
        (executeMerge cfg hash reportExists nowMs (some record) codex
            (some planId) (some tok)).1
            = { ok := false, status := some "failed" }
        ∧ ((executeMerge cfg hash reportExists nowMs (some record) codex
            (some planId) (some tok)).2.map (·.status)) = some "failed"
        ∧ ((executeMerge cfg hash reportExists nowMs (some record) codex
            (some planId) (some tok)).2.map (·.confirmationTokenHash))
            = some record.confirmationTokenHash) := by
  have hEmpty : pyStrip "" = "" := by decide
  refine ⟨?_, ?_, ?_, ?_⟩
  · simp [executeMerge, hEnabled, hAllow, hPlan, hEmpty]
  · intro hTok hMismatch
    simp [executeMerge, hEnabled, hAllow, hPlan, hTok, hMismatch]
  · intro hTok hStored hMatch hReport hOk
    simp [executeMerge, hEnabled, hAllow, hPlan, hTok, hStored, hMatch,
      hReport, hOk]
  · intro hTok hStored hMatch hReport hFail
    simp [executeMerge, hEnabled, hAllow, hPlan, hTok, hStored, hMatch,
      hReport, hFail]

/-- A concrete stored merge plan used to witness `C3`. -/
def examplePlanRecord : MergePlanRecord :=
  { planId := "p1", status := "revised", createdAtMs := 10, updatedAtMs := 20,
    baseRef := "origin/main", upstreamRef := "upstream/main",
    targetBranch := "main", workingDir := "w", reportPath := "r.md",
    reportExcerpt := "", recommendation := "Plan V2",
    confirmationTokenHash := "Htok", revision := 1 }

/-- Witness for `C3` at a concrete plan, hash oracle and codex outcomes. -/
theorem execute_merge_token_gating_witness :
    (executeMerge ⟨true, true⟩ (fun s => "H" ++ s) true 30
        (some examplePlanRecord) { ok := true, message := "Merged" }
        (some "p1") none).1.errorCode = some "missing_confirmation_token"
    ∧ (executeMerge ⟨true, true⟩ (fun s => "H" ++ s) true 30
        (some examplePlanRecord) { ok := true, message := "Merged" }
        (some "p1") (some "bad")).1.errorCode = some "invalid_confirmation_token"
    ∧ ((executeMerge ⟨true, true⟩ (fun s => "H" ++ s) true 30
        (some examplePlanRecord) { ok := true, message := "Merged" }
        (some "p1") (some "tok")).2.map (·.confirmationTokenHash)) = some ""
    ∧ ((executeMerge ⟨true, true⟩ (fun s => "H" ++ s) true 30
        (some examplePlanRecord) { ok := false, message := "boom" }
        (some "p1") (some "tok")).2.map (·.confirmationTokenHash)) = some "Htok" := by
  have h1 := execute_merge_token_gating_and_status ⟨true, true⟩
    (fun s => "H" ++ s) true 30 examplePlanRecord
    { ok := true, message := "Merged" } "p1" "bad"
    (by decide) (by decide) (by decide)
  have h2 := execute_merge_token_gating_and_status ⟨true, true⟩
    (fun s => "H" ++ s) true 30 examplePlanRecord
    { ok := true, message := "Merged" } "p1" "tok"
    (by decide) (by decide) (by decide)
  have h3 := execute_merge_token_gating_and_status ⟨true, true⟩
    (fun s => "H" ++ s) true 30 examplePlanRecord
    { ok := false, message := "boom" } "p1" "tok"
    (by decide) (by decide) (by decide)
  refine ⟨?_, ?_, ?_, ?_⟩
  · rw [h1.1]
  · rw [h1.2.1 (by decide) (by decide)]
  · exact (h2.2.2.1 (by decide) (by decide) (by decide) rfl rfl).2.2
  · exact (h3.2.2.2 (by decide) (by decide) (by decide) rfl rfl).2.2

/-- **C6** (corrected), counterexample.  `mode="reminder"` is a
*periodic* mode in `_add_job`; combined with `in_seconds` it fails the
`sum(periodic_inputs) != 1` check and no job is created, contrary to the
claimed one-shot `schedule.kind="at"` job. -/
theorem cron_add_reminder_in_seconds_rejected :
    addJob "telegram" "999" (fun _ => none) "job-1" 1000000 "drink water"
        "reminder" none none (some 120) none
      = ("Error: reminder/task mode requires exactly one of every_seconds or cron_expr",
         none) := by
  decide

/-- **C6** (corrected), amended claim.  A one-shot reminder requires
`mode="one_time"`: with `in_seconds=N>0` and a non-empty message in a
session with context it stores a job with `schedule.kind="at"`,
`schedule.at_ms = now + N*1000`, `delete_after_run=true` and payload kind
`system_event`; the same arguments under `mode="reminder"` are rejected
with an error and no job. -/
theorem cron_add_one_time_in_seconds_job
    (channel chatId message jobId : String) (parseIsoMs : String → Option Int)
    (nowMs n : Int)
    (hMsg : message ≠ "") (hCh : channel ≠ "") (hChat : chatId ≠ "")
    (hN : 0 < n) :
    (addJob channel chatId parseIsoMs jobId nowMs message "one_time"
        none none (some n) none).2
      = some
        { name := pyTake 30 message
          schedule := { kind := "at", atMs := some (nowMs + n * 1000) }
          message := message, payloadKind := "system_event", deliver := true
          channel := channel, deliverTo := chatId, deleteAfterRun := true }
    ∧ (addJob channel chatId parseIsoMs jobId nowMs message "reminder"
        none none (some n) none)
      = ("Error: reminder/task mode requires exactly one of every_seconds or cron_expr",
         none) := by
  have hle : ¬n ≤ 0 := by omega
  constructor
  · simp [addJob, hMsg, hCh, hChat, hle, pyTruthyStr]
  · simp [addJob, hMsg, hCh, hChat, pyTruthyStr]

/-- Witness for the amended `C6` at `N = 120` seconds. -/
theorem cron_add_one_time_in_seconds_witness :
    (addJob "telegram" "999" (fun _ => none) "job-1" 1000000 "drink water"
        "one_time" none none (some 120) none).2
      = some
        { name := "drink water"
          schedule := { kind := "at", atMs := some 1120000 }
          message := "drink water", payloadKind := "system_event"
          deliver := true, channel := "telegram", deliverTo := "999"
          deleteAfterRun := true } := by
  have h := (cron_add_one_time_in_seconds_job "telegram" "999" "drink water"
    "job-1" (fun _ => none) 1000000 120 (by decide) (by decide) (by decide)
    (by decide)).1
  rw [h]
  decide

/-- **C9** (confirmed).  The first `review_daily` of a day returns
`ok=true` with a summary built from the top 5 open items sorted by
priority and records `last_review_date = today` and the summary; any
further call on the same day returns `ok=true` with the fixed
"already completed" reply and leaves the store — hence the recorded
summary — unchanged. -/
theorem review_daily_idempotent_within_day
    (store : TodoStore) (today nowIso nowIso2 : String) (now now2 : Int)
    (h : store.meta.lastReviewDate ≠ some today) :
    ((reviewDaily store today now nowIso).1.ok = true
      ∧ (reviewDaily store today now nowIso).1.items
          = ((sortItemsPriorityAsc (store.items.filter (·.status.isOpen))).take 5).map
              (toPublicItem · now)
      ∧ (reviewDaily store today now nowIso).2.meta.lastReviewDate = some today
      ∧ (reviewDaily store today now nowIso).2.meta.lastReviewSummary
          = some (reviewDaily store today now nowIso).1.summary)
    ∧ (reviewDaily (reviewDaily store today now nowIso).2 today now2 nowIso2
        = (todoSuccess "review_daily" "Daily review already completed today." []
            (some (computeStats (reviewDaily store today now nowIso).2 now2)),
           (reviewDaily store today now nowIso).2))
    ∧ (reviewDaily (reviewDaily store today now nowIso).2 today now2 nowIso2).1.ok = true
    ∧ (reviewDaily (reviewDaily store today now nowIso).2 today now2 nowIso2).2.meta.lastReviewSummary
        = some (reviewDaily store today now nowIso).1.summary := by
  have h1 : (reviewDaily store today now nowIso).2.meta.lastReviewDate = some today := by
    simp [reviewDaily, h]
  have h2 : reviewDaily (reviewDaily store today now nowIso).2 today now2 nowIso2
      = (todoSuccess "review_daily" "Daily review already completed today." []
          (some (computeStats (reviewDaily store today now nowIso).2 now2)),
         (reviewDaily store today now nowIso).2) := by
    rw [reviewDaily.eq_def]
    simp [h1]
  refine ⟨⟨?_, ?_, h1, ?_⟩, h2, ?_, ?_⟩
  · simp [reviewDaily, h, todoSuccess]
  · simp [reviewDaily, h, todoSuccess]
  · simp [reviewDaily, h, todoSuccess]
  · rw [h2]; simp [todoSuccess]
  · rw [h2]
    simp [reviewDaily, h, todoSuccess]

/-- A concrete TODO store with two open items and no review recorded. -/
def exampleTodoStore : TodoStore :=
  { meta := { lastId := 2 }
    items :=
      [{ id := "T0001", title := "write report", status := .todo,
         priority := 1, createdAt := 100 },
       { id := "T0002", title := "ship release", status := .doing,
         priority := 2, createdAt := 200 }] }

/-- Witness for `C9`: two same-day reviews over the concrete store. -/
theorem review_daily_idempotent_witness :
    (reviewDaily exampleTodoStore "2026-10-12" 500 "t1").2.meta.lastReviewDate
        = some "2026-10-12"
    ∧ (reviewDaily (reviewDaily exampleTodoStore "2026-10-12" 500 "t1").2
        "2026-10-12" 600 "t2").2
      = (reviewDaily exampleTodoStore "2026-10-12" 500 "t1").2
    ∧ (reviewDaily (reviewDaily exampleTodoStore "2026-10-12" 500 "t1").2
        "2026-10-12" 600 "t2").1.summary
      = "Daily review already completed today." := by
  have h := review_daily_idempotent_within_day exampleTodoStore "2026-10-12"
    "t1" "t2" 500 600 (by decide)
  refine ⟨h.1.2.2.1, ?_, ?_⟩
  · rw [h.2.1]
  · rw [h.2.1]; simp [todoSuccess]

/-- **C10** (confirmed).  `TodoService.handle` is total over the action
string and handler behaviour: an unsupported action name yields the
structured `_error` payload carrying the failure message in `errors`, a
handler that raises (modelled by `Except.error`) yields the `_error`
payload with that message, and a returning handler's payload is passed
through unchanged — every result is a structured payload with the
`ok/action/summary/items/stats/errors` fields, never a propagated
exception. -/
theorem todo_handle_total_structured {κ : Type}
    (impl : String → κ → Except String TodoPayload) (action : String) (kw : κ) :
    (todoHandlerNames.contains (pyLower (pyStrip action)) = false →
      todoHandle impl action kw
        = todoError (pyLower (pyStrip action))
            ("Unsupported action: " ++ pyLower (pyStrip action))
      ∧ (todoHandle impl action kw).ok = false
      ∧ (todoHandle impl action kw).errors
          = ["Unsupported action: " ++ pyLower (pyStrip action)])
    ∧ (∀ e, todoHandlerNames.contains (pyLower (pyStrip action)) = true →
        impl (pyLower (pyStrip action)) kw = .error e →
        (todoHandle impl action kw).ok = false
        ∧ (todoHandle impl action kw).errors = [e])
    ∧ (∀ p, todoHandlerNames.contains (pyLower (pyStrip action)) = true →
        impl (pyLower (pyStrip action)) kw = .ok p →
        todoHandle impl action kw = p) := by
  refine ⟨?_, ?_, ?_⟩
  · intro hUnknown
    have h' : pyLower (pyStrip action) ∉ todoHandlerNames := by
      simpa using hUnknown
    simp [todoHandle, h', todoError]
  · intro e hKnown hErr
    have h' : pyLower (pyStrip action) ∈ todoHandlerNames := by
      simpa using hKnown
    simp [todoHandle, h', hErr, todoError]
  · intro p hKnown hOk
    have h' : pyLower (pyStrip action) ∈ todoHandlerNames := by
      simpa using hKnown
    simp [todoHandle, h', hOk]

/-- Witness for `C10`: an unsupported action and a raising handler. -/
theorem todo_handle_total_witness :
    (todoHandle (fun _ (_ : Unit) => Except.error "boom") "bogus" ()).errors
        = ["Unsupported action: bogus"]
    ∧ (todoHandle (fun _ (_ : Unit) => Except.error "boom") "Review_Daily " ()).errors
        = ["boom"]
    ∧ todoHandle (fun _ (_ : Unit) => Except.ok (todoSuccess "stats" "s" [] none))
        "stats" () = todoSuccess "stats" "s" [] none := by
  refine ⟨?_, ?_, ?_⟩
  · have h := (todo_handle_total_structured
      (fun _ (_ : Unit) => Except.error "boom") "bogus" ()).1 (by decide)
    rw [h.2.2]; decide
  · exact ((todo_handle_total_structured
      (fun _ (_ : Unit) => Except.error "boom") "Review_Daily " ()).2.1 "boom"
      (by decide) rfl).2
  · exact (todo_handle_total_structured
      (fun _ (_ : Unit) => Except.ok (todoSuccess "stats" "s" [] none))
      "stats" ()).2.2 _ (by decide) rfl

/-- Helper for C4: when every provider response carries exactly one tool
call, each loop entry makes one provider call, records one tool name, and
no final content is ever produced. -/
theorem runLoopAux_all_tool_calls
    (provider : Nat → List CtxMsg → LLMResponse)
    (execTool : String → String → String) (hasProgress : Bool)
    (hOne : ∀ i msgs, ((provider i msgs).toolCalls).length = 1) :
    ∀ (remaining : Nat) (msgs : List CtxMsg) (toolsUsed : List String)
      (retried : Bool) (calls : Nat),
      (runLoopAux provider execTool hasProgress remaining msgs toolsUsed
        retried calls).finalContent = none
      ∧ (runLoopAux provider execTool hasProgress remaining msgs toolsUsed
          retried calls).calls = calls + remaining
      ∧ (runLoopAux provider execTool hasProgress remaining msgs toolsUsed
          retried calls).toolsUsed.length = toolsUsed.length + remaining := by
  intro remaining
  induction remaining with
  | zero =>
    intro msgs toolsUsed retried calls
    simp [runLoopAux]
  | succ n ih =>
    intro msgs toolsUsed retried calls
    obtain ⟨tc, htc⟩ := List.length_eq_one.mp (hOne calls msgs)
    have step := ih
      (addToolResult
        (addAssistantMessage msgs (provider calls msgs).content
          [{ id := tc.id, name := tc.name, arguments := tc.arguments }]
          (provider calls msgs).reasoningContent)
        tc.id tc.name (execTool tc.name tc.arguments))
      (toolsUsed ++ [tc.name]) retried (calls + 1)
    simp only [runLoopAux, htc]
    simp only [List.isEmpty_cons, List.map_cons, List.map_nil,
      List.foldl_cons, List.foldl_nil, Bool.false_eq_true,
      not_false_iff, if_true, ite_true]
    refine ⟨step.1, ?_, ?_⟩
    · rw [step.2.1]; omega
    · rw [step.2.2]; simp; omega

/-- **C4** (confirmed).  When the provider returns exactly one tool call
on every response, `_run_agent_loop` makes exactly `max_iterations`
provider calls, ends with the fixed "max iterations" notice, and
`tools_used` has length `max_iterations`. -/
theorem agent_loop_iteration_bound
    (provider : Nat → List CtxMsg → LLMResponse)
    (execTool : String → String → String) (hasProgress : Bool)
    (maxIterations : Nat) (initialMessages : List CtxMsg)
    (hOne : ∀ i msgs, ((provider i msgs).toolCalls).length = 1) :
    (runAgentLoop provider execTool hasProgress maxIterations
      initialMessages).calls = maxIterations
    ∧ (runAgentLoop provider execTool hasProgress maxIterations
        initialMessages).toolsUsed.length = maxIterations
    ∧ (runAgentLoop provider execTool hasProgress maxIterations
        initialMessages).finalContent
      = some ("Reached " ++ toString maxIterations
          ++ " iterations without completion.") := by
  have h := runLoopAux_all_tool_calls provider execTool hasProgress hOne
    maxIterations initialMessages [] false 0
  rw [runAgentLoop]
  simp only [h.1, h.2.1, h.2.2, Option.isNone_none, List.length_nil]
  simp
  rw [h.2.2]
  simp

/-- A provider stub that always requests one `web_search` tool call. -/
def exampleToolLoopProvider : Nat → List CtxMsg → LLMResponse := fun _ _ =>
  { toolCalls := [{ id := "c1", name := "web_search", arguments := "q" }] }

/-- Witness for `C4` at `max_iterations = 3`. -/
theorem agent_loop_iteration_bound_witness :
    (runAgentLoop exampleToolLoopProvider (fun _ _ => "r") false 3 []).calls = 3
    ∧ (runAgentLoop exampleToolLoopProvider (fun _ _ => "r") false 3 []).toolsUsed.length = 3
    ∧ (runAgentLoop exampleToolLoopProvider (fun _ _ => "r") false 3 []).finalContent
      = some "Reached 3 iterations without completion." := by
  have h := agent_loop_iteration_bound exampleToolLoopProvider
    (fun _ _ => "r") false 3 [] (fun _ _ => rfl)
  exact ⟨h.1, h.2.1, by rw [h.2.2]; decide⟩

/-- The normal-path result of a `ProcessOutcome`, if any. -/
def ProcessOutcome.result? : ProcessOutcome → Option ProcessResult
  | .systemRouted => none
  | .normal r => some r

/-- The session state after a processed message (unchanged default on the
system route). -/
def ProcessOutcome.nextSession (d : SessionModel) : ProcessOutcome → SessionModel
  | .systemRouted => d
  | .normal r => r.session

/-- A redactor state with `security.redactSensitiveOutput = false`
(`redact` then returns its input unchanged). -/
def disabledRedactorState : Redact.RedactorState :=
  { enabled := false, literalPaths := [], literalEndpoints := [],
    literalSecrets := [] }

/-- A concrete loop environment: a provider that immediately answers
`"ok"`, trivial tool results, disabled redaction, identity media
handling, and no-op consolidation. -/
def exampleBaseEnv : LoopEnv :=
  { provider := fun _ _ => { content := some "ok" }
    execTool := fun _ _ => "result"
    redactText := Redact.redact disabledRedactorState
    normMedia := fun m => m
    isImageFile := fun _ => false
    resolvePath := fun p => p
    systemPrompt := "You are nanobot."
    consolidateEffect := fun s => s }

/-- **C2** (corrected), amended claim.  `/new` always snapshots the
pending messages for a background archival task, immediately clears the
session (`messages = []`, `last_consolidated = 0`), persists and
invalidates it, and replies with the fixed
`"New session started. Memory consolidation in progress."` — regardless
of the archival outcome, which is never consulted on this path. -/
theorem new_command_always_clears_and_replies_progress
    (env : LoopEnv) (consolidating : List String)
    (memoryWindow maxIterations : Nat) (hasProgress : Bool)
    (msg : InboundMsgModel) (session : SessionModel)
    (hCh : msg.channel ≠ "system")
    (hCmd : pyLower (pyStrip msg.content) = "/new") :
    processMessage env consolidating memoryWindow maxIterations hasProgress
        msg session
      = .normal
        { session := { session with messages := [], lastConsolidated := 0 }
          reply := some
            { channel := msg.channel, chatId := msg.chatId,
              content := "New session started. Memory consolidation in progress." }
          launchedConsolidation := false
          archivedForNew := some session.messages } := by
  simp [processMessage, hCh, hCmd]

/-- Witness for the amended `C2`: `" /NEW "` (stripped and lowercased)
clears a one-message session and replies with the progress string. -/
theorem new_command_witness :
    processMessage exampleBaseEnv [] 50 20 false
        { channel := "cli", senderId := "u", chatId := "d",
          content := " /NEW " }
        { key := "cli:d", messages := [{ role := "user", content := "x" }],
          lastConsolidated := 1 }
      = .normal
        { session := { key := "cli:d", messages := [], lastConsolidated := 0 }
          reply := some
            { channel := "cli", chatId := "d",
              content := "New session started. Memory consolidation in progress." }
          launchedConsolidation := false
          archivedForNew := some [{ role := "user", content := "x" }] } :=
  new_command_always_clears_and_replies_progress exampleBaseEnv [] 50 20 false
    { channel := "cli", senderId := "u", chatId := "d", content := " /NEW " }
    { key := "cli:d", messages := [{ role := "user", content := "x" }],
      lastConsolidated := 1 }
    (by decide) (by decide)

/-- **C2** (corrected), counterexample.  The `/new` branch clears the
session and replies before (and independently of) the detached archival
task — the model of the branch takes no archival outcome at all — so on a
session with one pending message the persisted message list is empty and
the reply is the fixed progress string, contradicting both the claimed
failure behaviour ("message list unchanged, reply an error") and the
claimed exact reply `"New session started."`. -/
theorem new_command_clears_despite_archival_failure :
    (processMessage exampleBaseEnv [] 50 20 false
        { channel := "telegram", senderId := "u1", chatId := "999",
          content := "/new" }
        { key := "telegram:999",
          messages := [{ role := "user", content := "hi" }],
          lastConsolidated := 1 })
      = .normal
        { session := { key := "telegram:999", messages := [],
                       lastConsolidated := 0 }
          reply := some
            { channel := "telegram", chatId := "999",
              content := "New session started. Memory consolidation in progress." }
          launchedConsolidation := false
          archivedForNew := some [{ role := "user", content := "hi" }] }
    ∧ ([] : List SessionEntry) ≠ [{ role := "user", content := "hi" }]
    ∧ "New session started. Memory consolidation in progress."
        ≠ "New session started." := by
  refine ⟨by decide, by decide, by decide⟩

/-- The scripted provider of spec scenario S1: one `web_search` tool call
on the first chat call, final content `"done"` on the second. -/
def s1Provider : Nat → List CtxMsg → LLMResponse := fun i _ =>
  if i = 0 then
    { toolCalls := [{ id := "c1", name := "web_search", arguments := "q" }] }
  else { content := some "done" }

def s1Env : LoopEnv :=
  { exampleBaseEnv with provider := s1Provider, execTool := fun _ _ => "r1" }

/-- **C5** (corrected), counterexample.  In the S1 scenario (exactly one
tool call, then `"done"`) the session gains exactly *two* entries — the
user message and the final assistant message annotated with the tool
names — not the four entries (user, assistant tool_calls, tool, final
assistant) the claim asserts; the intermediate assistant/tool context
messages are never persisted. -/
theorem persist_turn_appends_two_entries_not_four :
    ((processMessage s1Env [] 50 20 false
        { channel := "telegram", senderId := "u1", chatId := "999",
          content := "search" }
        { key := "telegram:999" }).result?.map
      (fun r => r.loopResult.toolsUsed)) = some ["web_search"]
    ∧ ((processMessage s1Env [] 50 20 false
        { channel := "telegram", senderId := "u1", chatId := "999",
          content := "search" }
        { key := "telegram:999" }).result?.map
      (fun r => r.session.messages.map (·.role))) = some ["user", "assistant"]
    ∧ ((processMessage s1Env [] 50 20 false
        { channel := "telegram", senderId := "u1", chatId := "999",
          content := "search" }
        { key := "telegram:999" }).result?.map
      (fun r => r.session.messages.length)) = some 2
    ∧ (2 : Nat) ≠ 4 := by
  refine ⟨by decide, by decide, by decide, by decide⟩

/-- **C5** (corrected), amended claim.  After every non-slash, non-system
turn the session gains exactly two entries: the raw user message and one
final assistant entry whose content is the redacted final content and
whose `tools_used` lists the tools used (omitted when none); tool-call
and tool-result context messages are not persisted and no 500-char
truncation is applied. -/
theorem persist_turn_appends_user_and_final_assistant
    (env : LoopEnv) (consolidating : List String)
    (memoryWindow maxIterations : Nat) (hasProgress : Bool)
    (msg : InboundMsgModel) (session : SessionModel)
    (hCh : msg.channel ≠ "system")
    (hNew : pyLower (pyStrip msg.content) ≠ "/new")
    (hHelp : pyLower (pyStrip msg.content) ≠ "/help") :
    ((processMessage env consolidating memoryWindow maxIterations hasProgress
        msg session).result?.map (fun r => r.session.messages))
      = ((processMessage env consolidating memoryWindow maxIterations hasProgress
        msg session).result?.map (fun r =>
          (if r.launchedConsolidation then env.consolidateEffect session
           else session).messages
          ++ [{ role := "user", content := msg.content },
              { role := "assistant",
                content := env.redactText (r.loopResult.finalContent.getD
                  "I've completed processing but have no response to give."),
                toolsUsed := if r.loopResult.toolsUsed.isEmpty then none
                  else some r.loopResult.toolsUsed }])) := by
  simp only [processMessage, hCh, hNew, hHelp, if_neg, ite_false,
    ProcessOutcome.result?, Option.map_some]
  simp only [mainTurn, Option.some_inj]
  split
  · simp
  · simp

/-- Witness for the amended `C5`: a plain no-tool turn appends the user
message and the assistant reply. -/
theorem persist_turn_appends_witness :
    ((processMessage exampleBaseEnv [] 50 20 false
        { channel := "cli", senderId := "user", chatId := "direct",
          content := "hello" }
        { key := "cli:direct" }).result?.map (fun r => r.session.messages))
      = some [{ role := "user", content := "hello" },
              { role := "assistant", content := "ok" }] := by
  rw [persist_turn_appends_user_and_final_assistant exampleBaseEnv [] 50 20
    false
    { channel := "cli", senderId := "user", chatId := "direct",
      content := "hello" }
    { key := "cli:direct" } (by decide) (by decide) (by decide)]
  decide

/-- **C7** (corrected), counterexample.  With `memory_window = 2`, a
session holding exactly 2 messages, `last_consolidated = 0` and no
in-flight consolidation, the claim's condition
`len(messages) - last_consolidated ≥ memory_window` holds, yet no
consolidation is launched: the code tests `len(messages) > memory_window`
and ignores `last_consolidated`. -/
theorem consolidation_trigger_ignores_last_consolidated :
    ((processMessage exampleBaseEnv [] 2 20 false
        { channel := "cli", senderId := "u", chatId := "d", content := "hi" }
        { key := "cli:d",
          messages := [{ role := "user", content := "a" },
                       { role := "assistant", content := "b" }],
          lastConsolidated := 0 }).result?.map
      (fun r => r.launchedConsolidation)) = some false
    ∧ 2 - 0 ≥ 2
    ∧ ([] : List String).contains "cli:d" = false := by
  refine ⟨by decide, by decide, by decide⟩

/-- **C7** (corrected), amended claim.  For every non-slash, non-system
message, consolidation is launched if and only if
`len(session.messages) > memory_window` (strictly, and without reference
to `last_consolidated`) and no consolidation is already in flight for the
session key. -/
theorem consolidation_trigger_iff_len_gt_window
    (env : LoopEnv) (consolidating : List String)
    (memoryWindow maxIterations : Nat) (hasProgress : Bool)
    (msg : InboundMsgModel) (session : SessionModel)
    (hCh : msg.channel ≠ "system")
    (hNew : pyLower (pyStrip msg.content) ≠ "/new")
    (hHelp : pyLower (pyStrip msg.content) ≠ "/help") :
    ((processMessage env consolidating memoryWindow maxIterations hasProgress
        msg session).result?.map (fun r => r.launchedConsolidation))
      = some (decide (memoryWindow < session.messages.length)
          && !consolidating.contains session.key) := by
  simp only [processMessage, hCh, hNew, hHelp, if_neg, ite_false,
    ProcessOutcome.result?, Option.map_some]
  simp [mainTurn]

/-- Witness for the amended `C7`: three messages against a window of two
launch a consolidation. -/
theorem consolidation_trigger_witness :
    ((processMessage exampleBaseEnv [] 2 20 false
        { channel := "cli", senderId := "u", chatId := "d", content := "hi" }
        { key := "cli:d",
          messages := [{ role := "user", content := "a" },
                       { role := "assistant", content := "b" },
                       { role := "user", content := "c" }] }).result?.map
      (fun r => r.launchedConsolidation)) = some true := by
  rw [consolidation_trigger_iff_len_gt_window exampleBaseEnv [] 2 20 false
    { channel := "cli", senderId := "u", chatId := "d", content := "hi" }
    { key := "cli:d",
      messages := [{ role := "user", content := "a" },
                   { role := "assistant", content := "b" },
                   { role := "user", content := "c" }] }
    (by decide) (by decide) (by decide)]
  decide

/-- The last element of a context list that ends in an appended user
entry. -/
theorem getLast?_cons_concat {α : Type} (x a : α) (l : List α) :
    (x :: (l ++ [a])).getLast? = some a := by
  rw [← List.cons_append, List.getLast?_concat]

/-- Helper for C8: the observable fields of one non-slash turn that does
not trigger consolidation (session key preserved, exactly two entries
appended, the `_recent_image_context` update, the effective media, and
the user entry closing the LLM context). -/
theorem mainTurn_no_launch_fields
    (env : LoopEnv) (cons : List String) (mw mi : Nat) (hp : Bool)
    (msg : InboundMsgModel) (session : SessionModel)
    (hNoLaunch : session.messages.length ≤ mw) :
    (mainTurn env cons mw mi hp msg session).session.key = session.key
    ∧ (mainTurn env cons mw mi hp msg session).session.messages.length
        = session.messages.length + 2
    ∧ (mainTurn env cons mw mi hp msg session).session.recentImage
        = (match extractLatestImage env.isImageFile env.resolvePath
              (env.normMedia msg.media) with
           | some image => some { path := image, turnsLeft := 2 }
           | none => (consumeRecentImage env.isImageFile session.recentImage).1)
    ∧ (mainTurn env cons mw mi hp msg session).effectiveMedia
        = (match extractLatestImage env.isImageFile env.resolvePath
              (env.normMedia msg.media) with
           | some _ => env.normMedia msg.media
           | none =>
             match (consumeRecentImage env.isImageFile session.recentImage).2 with
             | some recent =>
               if ¬(env.normMedia msg.media).contains recent
               then env.normMedia msg.media ++ [recent]
               else env.normMedia msg.media
             | none => env.normMedia msg.media)
    ∧ (mainTurn env cons mw mi hp msg session).initialMessages.getLast?
        = some
          (let eff := (mainTurn env cons mw mi hp msg session).effectiveMedia
           let images := ((if eff.isEmpty then none else some eff).getD []).filter
             env.isImageFile
           if images.isEmpty then
             { role := "user", content := .text msg.content }
           else { role := "user", content := .withImages images msg.content }) := by
  have hl : (decide (session.messages.length > mw)) = false :=
    decide_eq_false (by omega)
  simp only [mainTurn, hl, Bool.false_and, Bool.if_false_left,
    Bool.and_false, if_false]
  simp only [buildMessages]
  cases hX : extractLatestImage env.isImageFile env.resolvePath
      (env.normMedia msg.media) with
  | some image =>
    simp [getLast?_cons_concat]
  | none =>
    cases hY : (consumeRecentImage env.isImageFile session.recentImage).2 with
    | some recent => simp [hY, getLast?_cons_concat]
    | none => simp [hY, getLast?_cons_concat]

/-- Helper for C8, turn carrying one image: it is remembered with
`turns_left = 2` and the user entry embeds it. -/
theorem mainTurn_with_image
    (env : LoopEnv) (cons : List String) (mw mi : Nat) (hp : Bool)
    (msg : InboundMsgModel) (session : SessionModel) (img : String)
    (hNoLaunch : session.messages.length ≤ mw)
    (hMedia : env.normMedia msg.media = [img])
    (hImg : env.isImageFile img = true) (hStrip : pyStrip img = img)
    (hNe : img ≠ "") (hRes : env.resolvePath img = img) :
    (mainTurn env cons mw mi hp msg session).session.key = session.key
    ∧ (mainTurn env cons mw mi hp msg session).session.messages.length
        = session.messages.length + 2
    ∧ (mainTurn env cons mw mi hp msg session).session.recentImage
        = some { path := img, turnsLeft := 2 }
    ∧ (mainTurn env cons mw mi hp msg session).effectiveMedia = [img]
    ∧ (mainTurn env cons mw mi hp msg session).initialMessages.getLast?
        = some { role := "user", content := .withImages [img] msg.content } := by
  have hf := mainTurn_no_launch_fields env cons mw mi hp msg session hNoLaunch
  have hx : extractLatestImage env.isImageFile env.resolvePath
      (env.normMedia msg.media) = some img := by
    rw [hMedia]
    simp [extractLatestImage, hStrip, hImg, hNe, hRes]
  have heff : (mainTurn env cons mw mi hp msg session).effectiveMedia = [img] := by
    rw [hf.2.2.2.1, hx, hMedia]
  refine ⟨hf.1, hf.2.1, ?_, heff, ?_⟩
  · rw [hf.2.2.1, hx]
  · rw [hf.2.2.2.2, heff]
    simp [hImg]

/-- Helper for C8, image-less turn with a live `_recent_image_context`:
the image is appended to the effective media and `turns_left`
decremented (the entry is dropped when it reaches zero). -/
theorem mainTurn_consume_image
    (env : LoopEnv) (cons : List String) (mw mi : Nat) (hp : Bool)
    (msg : InboundMsgModel) (session : SessionModel) (img : String) (tl : Int)
    (hNoLaunch : session.messages.length ≤ mw)
    (hMedia : env.normMedia msg.media = [])
    (hRecent : session.recentImage = some { path := img, turnsLeft := tl })
    (hTl : 0 < tl) (hImg : env.isImageFile img = true) :
    (mainTurn env cons mw mi hp msg session).session.key = session.key
    ∧ (mainTurn env cons mw mi hp msg session).session.messages.length
        = session.messages.length + 2
    ∧ (mainTurn env cons mw mi hp msg session).session.recentImage
        = (if tl - 1 ≤ 0 then none
           else some { path := img, turnsLeft := tl - 1 })
    ∧ (mainTurn env cons mw mi hp msg session).effectiveMedia = [img]
    ∧ (mainTurn env cons mw mi hp msg session).initialMessages.getLast?
        = some { role := "user", content := .withImages [img] msg.content } := by
  have hf := mainTurn_no_launch_fields env cons mw mi hp msg session hNoLaunch
  have hx : extractLatestImage env.isImageFile env.resolvePath
      (env.normMedia msg.media) = none := by
    rw [hMedia]; simp [extractLatestImage]
  have hcons : consumeRecentImage env.isImageFile session.recentImage
      = ((if tl - 1 ≤ 0 then none
          else some { path := img, turnsLeft := tl - 1 }), some img) := by
    rw [hRecent]
    simp [consumeRecentImage, hImg, not_le.mpr hTl]
  have heff : (mainTurn env cons mw mi hp msg session).effectiveMedia = [img] := by
    rw [hf.2.2.2.1, hx, hcons, hMedia]
    simp
  refine ⟨hf.1, hf.2.1, ?_, heff, ?_⟩
  · rw [hf.2.2.1, hx, hcons]
  · rw [hf.2.2.2.2, heff]
    simp [hImg]

/-- Helper for C8, image-less turn with no remembered image: plain text
user entry and no media. -/
theorem mainTurn_no_image
    (env : LoopEnv) (cons : List String) (mw mi : Nat) (hp : Bool)
    (msg : InboundMsgModel) (session : SessionModel)
    (hNoLaunch : session.messages.length ≤ mw)
    (hMedia : env.normMedia msg.media = [])
    (hRecent : session.recentImage = none) :
    (mainTurn env cons mw mi hp msg session).session.key = session.key
    ∧ (mainTurn env cons mw mi hp msg session).session.messages.length
        = session.messages.length + 2
    ∧ (mainTurn env cons mw mi hp msg session).session.recentImage = none
    ∧ (mainTurn env cons mw mi hp msg session).effectiveMedia = []
    ∧ (mainTurn env cons mw mi hp msg session).initialMessages.getLast?
        = some { role := "user", content := .text msg.content } := by
  have hf := mainTurn_no_launch_fields env cons mw mi hp msg session hNoLaunch
  have hx : extractLatestImage env.isImageFile env.resolvePath
      (env.normMedia msg.media) = none := by
    rw [hMedia]; simp [extractLatestImage]
  have hcons : consumeRecentImage env.isImageFile session.recentImage
      = (none, none) := by
    rw [hRecent]; rfl
  have heff : (mainTurn env cons mw mi hp msg session).effectiveMedia = [] := by
    rw [hf.2.2.2.1, hx, hcons, hMedia]
  refine ⟨hf.1, hf.2.1, ?_, heff, ?_⟩
  · rw [hf.2.2.1, hx, hcons]
  · rw [hf.2.2.2.2, heff]
    simp

/-- The session state persisted by one processed message. -/
def afterTurn (env : LoopEnv) (cons : List String) (mw mi : Nat) (hp : Bool)
    (msg : InboundMsgModel) (s : SessionModel) : SessionModel :=
  (processMessage env cons mw mi hp msg s).nextSession s

/-- Scenario S3 message shapes: a turn carrying one image, and a
follow-up turn with no media. -/
def imageMsg (channel senderId chatId c img : String) : InboundMsgModel :=
  { channel := channel, senderId := senderId, chatId := chatId,
    content := c, media := [img] }

def followupMsg (channel senderId chatId c : String) : InboundMsgModel :=
  { channel := channel, senderId := senderId, chatId := chatId,
    content := c, media := [] }

/-- **C8** (confirmed).  When turn 1 carries an image and turns 2–4 carry
no media (all non-slash, window large enough that no consolidation
interferes), the image is remembered with `turns_left = 2`; turns 2 and 3
append it to the effective media, and their composed user entry embeds it
as an image part; the counter decrements each time and after turn 3 the
remembered entry is gone, so turn 4 composes a plain-text user entry. -/
theorem image_carry_over_two_turns
    (env : LoopEnv) (cons : List String) (mw mi : Nat) (hp : Bool)
    (channel senderId chatId img c1 c2 c3 c4 : String)
    (session0 : SessionModel)
    (hCh : channel ≠ "system")
    (hCmd : ∀ c ∈ [c1, c2, c3, c4],
      pyLower (pyStrip c) ≠ "/new" ∧ pyLower (pyStrip c) ≠ "/help")
    (hImg : env.isImageFile img = true) (hStrip : pyStrip img = img)
    (hNe : img ≠ "") (hRes : env.resolvePath img = img)
    (hNorm1 : env.normMedia [img] = [img]) (hNorm0 : env.normMedia [] = [])
    (hWin : session0.messages.length + 6 ≤ mw) :
    (afterTurn env cons mw mi hp (imageMsg channel senderId chatId c1 img)
        session0).recentImage = some { path := img, turnsLeft := 2 }
    ∧ ((processMessage env cons mw mi hp (followupMsg channel senderId chatId c2)
        (afterTurn env cons mw mi hp (imageMsg channel senderId chatId c1 img)
          session0)).result?.map (fun r => r.effectiveMedia)) = some [img]
    ∧ ((processMessage env cons mw mi hp (followupMsg channel senderId chatId c2)
        (afterTurn env cons mw mi hp (imageMsg channel senderId chatId c1 img)
          session0)).result?.map
        (fun r => r.initialMessages.getLast?.map (fun m => m.content)))
      = some (some (.withImages [img] c2))
    ∧ (afterTurn env cons mw mi hp (followupMsg channel senderId chatId c2)
        (afterTurn env cons mw mi hp (imageMsg channel senderId chatId c1 img)
          session0)).recentImage = some { path := img, turnsLeft := 1 }
    ∧ ((processMessage env cons mw mi hp (followupMsg channel senderId chatId c3)
        (afterTurn env cons mw mi hp (followupMsg channel senderId chatId c2)
          (afterTurn env cons mw mi hp (imageMsg channel senderId chatId c1 img)
            session0))).result?.map (fun r => r.effectiveMedia)) = some [img]
    ∧ ((processMessage env cons mw mi hp (followupMsg channel senderId chatId c3)
        (afterTurn env cons mw mi hp (followupMsg channel senderId chatId c2)
          (afterTurn env cons mw mi hp (imageMsg channel senderId chatId c1 img)
            session0))).result?.map
        (fun r => r.initialMessages.getLast?.map (fun m => m.content)))
      = some (some (.withImages [img] c3))
    ∧ (afterTurn env cons mw mi hp (followupMsg channel senderId chatId c3)
        (afterTurn env cons mw mi hp (followupMsg channel senderId chatId c2)
          (afterTurn env cons mw mi hp (imageMsg channel senderId chatId c1 img)
            session0))).recentImage = none
    ∧ ((processMessage env cons mw mi hp (followupMsg channel senderId chatId c4)
        (afterTurn env cons mw mi hp (followupMsg channel senderId chatId c3)
          (afterTurn env cons mw mi hp (followupMsg channel senderId chatId c2)
            (afterTurn env cons mw mi hp (imageMsg channel senderId chatId c1 img)
              session0)))).result?.map (fun r => r.effectiveMedia)) = some []
    ∧ ((processMessage env cons mw mi hp (followupMsg channel senderId chatId c4)
        (afterTurn env cons mw mi hp (followupMsg channel senderId chatId c3)
          (afterTurn env cons mw mi hp (followupMsg channel senderId chatId c2)
            (afterTurn env cons mw mi hp (imageMsg channel senderId chatId c1 img)
              session0)))).result?.map
        (fun r => r.initialMessages.getLast?.map (fun m => m.content)))
      = some (some (.text c4)) := by
  obtain ⟨h1new, h1help⟩ := hCmd c1 (by simp)
  obtain ⟨h2new, h2help⟩ := hCmd c2 (by simp)
  obtain ⟨h3new, h3help⟩ := hCmd c3 (by simp)
  obtain ⟨h4new, h4help⟩ := hCmd c4 (by simp)
  have hpm : ∀ (m : InboundMsgModel) (s : SessionModel), m.channel = channel →
      pyLower (pyStrip m.content) ≠ "/new" →
      pyLower (pyStrip m.content) ≠ "/help" →
      processMessage env cons mw mi hp m s
        = .normal (mainTurn env cons mw mi hp m s) := by
    intro m s hmc hn hh
    simp only [processMessage]
    rw [if_neg (by rw [hmc]; exact hCh), if_neg hn, if_neg hh]
  -- turn 1
  have e1 := mainTurn_with_image env cons mw mi hp
    (imageMsg channel senderId chatId c1 img) session0 img (by omega)
    hNorm1 hImg hStrip hNe hRes
  have hS1 : afterTurn env cons mw mi hp
      (imageMsg channel senderId chatId c1 img) session0
      = (mainTurn env cons mw mi hp (imageMsg channel senderId chatId c1 img)
          session0).session := by
    rw [afterTurn, hpm _ _ rfl h1new h1help]; rfl
  have hS1rec : (afterTurn env cons mw mi hp
      (imageMsg channel senderId chatId c1 img) session0).recentImage
      = some { path := img, turnsLeft := 2 } := by
    rw [hS1]; exact e1.2.2.1
  have hS1len : (afterTurn env cons mw mi hp
      (imageMsg channel senderId chatId c1 img) session0).messages.length
      = session0.messages.length + 2 := by
    rw [hS1]; exact e1.2.1
  -- turn 2
  have e2 := mainTurn_consume_image env cons mw mi hp
    (followupMsg channel senderId chatId c2)
    (afterTurn env cons mw mi hp (imageMsg channel senderId chatId c1 img)
      session0) img 2
    (by rw [hS1len]; omega) hNorm0 hS1rec (by norm_num) hImg
  have hpm2 := hpm (followupMsg channel senderId chatId c2)
    (afterTurn env cons mw mi hp (imageMsg channel senderId chatId c1 img)
      session0) rfl h2new h2help
  have hS2 : afterTurn env cons mw mi hp
      (followupMsg channel senderId chatId c2)
      (afterTurn env cons mw mi hp (imageMsg channel senderId chatId c1 img)
        session0)
      = (mainTurn env cons mw mi hp (followupMsg channel senderId chatId c2)
          (afterTurn env cons mw mi hp (imageMsg channel senderId chatId c1 img)
            session0)).session := by
    rw [afterTurn, hpm2]; rfl
  have hS2rec : (afterTurn env cons mw mi hp
      (followupMsg channel senderId chatId c2)
      (afterTurn env cons mw mi hp (imageMsg channel senderId chatId c1 img)
        session0)).recentImage = some { path := img, turnsLeft := 1 } := by
    rw [hS2, e2.2.2.1]; norm_num
  have hS2len : (afterTurn env cons mw mi hp
      (followupMsg channel senderId chatId c2)
      (afterTurn env cons mw mi hp (imageMsg channel senderId chatId c1 img)
        session0)).messages.length = session0.messages.length + 4 := by
    rw [hS2, e2.2.1, hS1len]
  -- turn 3
  have e3 := mainTurn_consume_image env cons mw mi hp
    (followupMsg channel senderId chatId c3)
    (afterTurn env cons mw mi hp (followupMsg channel senderId chatId c2)
      (afterTurn env cons mw mi hp (imageMsg channel senderId chatId c1 img)
        session0)) img 1
    (by rw [hS2len]; omega) hNorm0 hS2rec (by norm_num) hImg
  have hpm3 := hpm (followupMsg channel senderId chatId c3)
    (afterTurn env cons mw mi hp (followupMsg channel senderId chatId c2)
      (afterTurn env cons mw mi hp (imageMsg channel senderId chatId c1 img)
        session0)) rfl h3new h3help
  have hS3 : afterTurn env cons mw mi hp
      (followupMsg channel senderId chatId c3)
      (afterTurn env cons mw mi hp (followupMsg channel senderId chatId c2)
        (afterTurn env cons mw mi hp (imageMsg channel senderId chatId c1 img)
          session0))
      = (mainTurn env cons mw mi hp (followupMsg channel senderId chatId c3)
          (afterTurn env cons mw mi hp (followupMsg channel senderId chatId c2)
            (afterTurn env cons mw mi hp
              (imageMsg channel senderId chatId c1 img) session0))).session := by
    rw [afterTurn, hpm3]; rfl
  have hS3rec : (afterTurn env cons mw mi hp
      (followupMsg channel senderId chatId c3)
      (afterTurn env cons mw mi hp (followupMsg channel senderId chatId c2)
        (afterTurn env cons mw mi hp (imageMsg channel senderId chatId c1 img)
          session0))).recentImage = none := by
    rw [hS3, e3.2.2.1]; norm_num
  have hS3len : (afterTurn env cons mw mi hp
      (followupMsg channel senderId chatId c3)
      (afterTurn env cons mw mi hp (followupMsg channel senderId chatId c2)
        (afterTurn env cons mw mi hp (imageMsg channel senderId chatId c1 img)
          session0))).messages.length = session0.messages.length + 6 := by
    rw [hS3, e3.2.1, hS2len]
  -- turn 4
  have e4 := mainTurn_no_image env cons mw mi hp
    (followupMsg channel senderId chatId c4)
    (afterTurn env cons mw mi hp (followupMsg channel senderId chatId c3)
      (afterTurn env cons mw mi hp (followupMsg channel senderId chatId c2)
        (afterTurn env cons mw mi hp (imageMsg channel senderId chatId c1 img)
          session0)))
    (by rw [hS3len]; omega) hNorm0 hS3rec
  have hpm4 := hpm (followupMsg channel senderId chatId c4)
    (afterTurn env cons mw mi hp (followupMsg channel senderId chatId c3)
      (afterTurn env cons mw mi hp (followupMsg channel senderId chatId c2)
        (afterTurn env cons mw mi hp (imageMsg channel senderId chatId c1 img)
          session0))) rfl h4new h4help
  refine ⟨hS1rec, ?_, ?_, hS2rec, ?_, ?_, hS3rec, ?_, ?_⟩
  · rw [hpm2]
    simp only [ProcessOutcome.result?, Option.map_some']
    rw [e2.2.2.2.1]
  · rw [hpm2]
    simp only [ProcessOutcome.result?, Option.map_some']
    rw [e2.2.2.2.2]
    rfl
  · rw [hpm3]
    simp only [ProcessOutcome.result?, Option.map_some']
    rw [e3.2.2.2.1]
  · rw [hpm3]
    simp only [ProcessOutcome.result?, Option.map_some']
    rw [e3.2.2.2.2]
    rfl
  · rw [hpm4]
    simp only [ProcessOutcome.result?, Option.map_some']
    rw [e4.2.2.2.1]
  · rw [hpm4]
    simp only [ProcessOutcome.result?, Option.map_some']
    rw [e4.2.2.2.2]
    rfl

/-- An environment whose image-file oracle recognises exactly the seeded
`vision.png`. -/
def exampleImageEnv : LoopEnv :=
  { exampleBaseEnv with isImageFile := fun p => decide (p = "/w/vision.png") }

/-- Witness for `C8`: the S3 scenario (`see + image`, `q1`, `q2`, `q3`) —
the user entries of turns 2 and 3 embed the image, turn 4's does not. -/
theorem image_carry_over_witness :
    ((processMessage exampleImageEnv [] 50 20 false
        (followupMsg "feishu" "u1" "ou_test" "q1")
        (afterTurn exampleImageEnv [] 50 20 false
          (imageMsg "feishu" "u1" "ou_test" "see" "/w/vision.png")
          { key := "feishu:ou_test" })).result?.map
      (fun r => r.initialMessages.getLast?.map (fun m => m.content)))
      = some (some (.withImages ["/w/vision.png"] "q1"))
    ∧ ((processMessage exampleImageEnv [] 50 20 false
        (followupMsg "feishu" "u1" "ou_test" "q3")
        (afterTurn exampleImageEnv [] 50 20 false
          (followupMsg "feishu" "u1" "ou_test" "q2")
          (afterTurn exampleImageEnv [] 50 20 false
            (followupMsg "feishu" "u1" "ou_test" "q1")
            (afterTurn exampleImageEnv [] 50 20 false
              (imageMsg "feishu" "u1" "ou_test" "see" "/w/vision.png")
              { key := "feishu:ou_test" })))).result?.map
      (fun r => r.initialMessages.getLast?.map (fun m => m.content)))
      = some (some (.text "q3")) := by
  have h := image_carry_over_two_turns exampleImageEnv [] 50 20 false
    "feishu" "u1" "ou_test" "/w/vision.png" "see" "q1" "q2" "q3"
    { key := "feishu:ou_test" } (by decide) (by decide) (by decide)
    (by decide) (by decide) rfl rfl rfl (by decide)
  exact ⟨h.2.2.1, h.2.2.2.2.2.2.2.2⟩

end Spec2Proof
